import Mathlib

/-!
Verification of the Slider Collection and Macro Synchronization model of the
Extension-SliderMacros repository (src/index.ts), shallowly embedded in Lean.
Quantities the TypeScript source manipulates exactly (integers, order
counters, hex channel values) are modelled as Int/Nat.  The RGB-to-HSV
conversion divides channel values by 255 and later divides by delta and by
the maximum; every such quantity is an exact fraction, so it is carried
here as an explicit numerator over an explicit positive denominator, and
JS Math.round and the JS % operator become integer operations on those
fractions.
-/

namespace SliderMacros

/-- JS Math.round applied to the exact fraction p / q (for q > 0):
round (p / q) = floor (p / q + 1 / 2) = (2p + q) fdiv 2q. -/
def roundFrac (p q : ℤ) : ℤ := (2 * p + q).fdiv (2 * q)

/-- JS remainder x % m for x = p / q (q > 0) and integer modulus m,
returned as a numerator over the same denominator q:
x % m = x - m * trunc (x / m), and trunc (p / (m*q)) = p tdiv (m*q). -/
def remFrac (p q m : ℤ) : ℤ := p - m * q * (p.tdiv (m * q))

/-- JS String.toUpperCase, character by character.  Every string the hex
branch of formatColor uppercases is a '#' followed by hex digits (or the
constant '#ffffff'), so the per-character ASCII mapping is exact. -/
def jsToUpper (s : String) : String := String.mk (s.toList.map Char.toUpper)

/-- Character class of the regex at index.ts:2547, namely [0-9A-Fa-f]. -/
def isHexDigitChar (c : Char) : Bool :=
  (decide ('0' ≤ c) && decide (c ≤ '9')) ||
  (decide ('a' ≤ c) && decide (c ≤ 'f')) ||
  (decide ('A' ≤ c) && decide (c ≤ 'F'))

/-- The test of the regex at index.ts:2547 against a whole string:
a '#' followed by exactly six hexadecimal digits. -/
def isValidHexColor (s : String) : Bool :=
  match s.toList with
  | '#' :: rest => rest.length == 6 && rest.all isHexDigitChar
  | _ => false

/-- Numeric value of one hexadecimal digit (parseInt base 16, one digit). -/
def hexDigitVal (c : Char) : Nat :=
  if '0' ≤ c ∧ c ≤ '9' then c.toNat - 48
  else if 'a' ≤ c ∧ c ≤ 'f' then c.toNat - 87
  else if 'A' ≤ c ∧ c ≤ 'F' then c.toNat - 55
  else 0

/-- parseInt (hex.slice (i, i+2), 16): value of a two-digit hex pair. -/
def hexPair (a b : Char) : Nat := 16 * hexDigitVal a + hexDigitVal b

/-- The three channel values parsed from a #RRGGBB string
(index.ts:2556-2558).  The fallback branch is never reached on the
normalized input. -/
def parseHexColor (s : String) : Nat × Nat × Nat :=
  match s.toList with
  | _ :: r1 :: r2 :: g1 :: g2 :: b1 :: b2 :: _ =>
      (hexPair r1 r2, hexPair g1 g2, hexPair b1 b2)
  | _ => (255, 255, 255)

/-- Output shape of the rgb branch of formatColor. -/
def rgbString (r g b : Nat) : String :=
  "rgb(" ++ toString r ++ ", " ++ toString g ++ ", " ++ toString b ++ ")"

/-- Output shape of the hsv branch of formatColor. -/
def hsvString (h s v : ℤ) : String :=
  "hsv(" ++ toString h ++ ", " ++ toString s ++ "%, " ++ toString v ++ "%)"

/-- formatColor (index.ts:2545-2590).  Invalid input is replaced by
'#ffffff'; the hex branch uppercases; the rgb branch prints the parsed
channels; otherwise the standard RGB-to-HSV conversion is performed.  The
source normalizes each channel to channel/255 and compares those
normalized rationals; scaling by the common positive denominator 255
preserves every comparison, so max, min and delta are computed on the raw
channels here, and each rational appearing afterwards is carried as an
exact fraction: the hue h is round of (p/delta * 60), the saturation is
round of (delta/max * 100) and the value is round of (max/255 * 100).
This is the hue computation (index.ts:2564-2584); p/delta is the raw hue
in sixths of a turn, with the % 6 of the max-red branch applied to the
fraction (g-b)/delta. -/
def hsvH (r g b : Nat) : ℤ :=
  let mx := Nat.max r (Nat.max g b)
  let mn := Nat.min r (Nat.min g b)
  let dl : ℤ := (mx : ℤ) - (mn : ℤ)
  if dl ≠ 0 then
    let p : ℤ :=
      if mx = r then remFrac ((g : ℤ) - (b : ℤ)) dl 6
      else if mx = g then ((b : ℤ) - (r : ℤ)) + 2 * dl
      else ((r : ℤ) - (g : ℤ)) + 4 * dl
    let h0 := roundFrac (p * 60) dl
    if h0 < 0 then h0 + 360 else h0
  else 0

/-- The saturation of the hsv branch: round (delta / max * 100), or 0
when max is 0. -/
def hsvS (r g b : Nat) : ℤ :=
  let mx := Nat.max r (Nat.max g b)
  let mn := Nat.min r (Nat.min g b)
  if mx = 0 then 0 else roundFrac (((mx : ℤ) - (mn : ℤ)) * 100) (mx : ℤ)

/-- The value of the hsv branch: round (max / 255 * 100). -/
def hsvV (r g b : Nat) : ℤ :=
  roundFrac ((Nat.max r (Nat.max g b) : ℤ) * 100) 255

/-- formatColor (index.ts:2545-2590): invalid input is replaced by
'#ffffff'; the hex branch uppercases; the rgb branch prints the parsed
channels; every other format string takes the hsv branch, built from the
three components above. -/
def formatColor (hexIn : String) (format : String) : String :=
  let hex := if isValidHexColor hexIn then hexIn else "#ffffff"
  if format = "hex" then jsToUpper hex
  else
    let c := parseHexColor hex
    let r := c.1
    let g := c.2.1
    let b := c.2.2
    if format = "rgb" then rgbString r g b
    else hsvString (hsvH r g b) (hsvS r g b) (hsvV r g b)

/-- The dynamically typed runtime value of a slider: a JS number (exact
rational), string, or boolean. -/
inductive SVal where
  | num (q : ℚ)
  | str (s : String)
  | bool (b : Bool)
deriving DecidableEq

/-- JS String.trim restricted to ASCII whitespace, written over the
character list so that the kernel can evaluate it. -/
def jsTrim (s : String) : String :=
  let ws := fun c => c == ' ' || c == '\t' || c == '\n' || c == '\r'
  String.mk (((s.toList.dropWhile ws).reverse.dropWhile ws).reverse)

/-- Decimal integer parsing of a character list (used by the JS ToNumber
model below). -/
def decDigits (cs : List Char) : Option Nat :=
  if cs.isEmpty || !cs.all Char.isDigit then none
  else some (cs.foldl (fun acc c => 10 * acc + (c.toNat - 48)) 0)

/-- JS ToNumber, restricted to the value shapes the modelled code paths
produce: numbers and booleans convert exactly; a blank string is 0 and a
(signed) decimal integer literal converts to its value; any other string
is NaN, represented as none.  Every slider value the verified claims
exercise is already numeric, so the restriction is inessential. -/
def jsToNumber : SVal → Option ℚ
  | .num q => some q
  | .bool b => some (if b then 1 else 0)
  | .str s =>
      match (jsTrim s).toList with
      | [] => some 0
      | '-' :: rest => (decDigits rest).map (fun n => ((-(n : ℤ) : ℤ) : ℚ))
      | cs => (decDigits cs).map (fun n => ((n : ℤ) : ℚ))

/-- q < n, decided on the numerator/denominator representation so that the
kernel can evaluate it (q.den is always positive). -/
def qLtInt (q : ℚ) (n : ℤ) : Bool := decide (q.num < n * (q.den : ℤ))

/-- JS comparison v < n where v may be NaN (none): NaN compares false. -/
def jsLtNum (v : Option ℚ) (n : ℤ) : Bool :=
  match v with
  | some q => qLtInt q n
  | none => false

/-- JS comparison v >= n where v may be NaN (none): NaN compares false. -/
def jsGeNum (v : Option ℚ) (n : ℤ) : Bool :=
  match v with
  | some q => !qLtInt q n
  | none => false

/-- A dropdownOptions entry: {key: display-name, value: macro-output}. -/
structure DropdownOption where
  key : String
  value : String
deriving DecidableEq

/-- The SliderModel interface (index.ts:750-773). -/
structure Slider where
  name : String
  property : String
  type : String
  min : String
  max : String
  step : String
  value : SVal
  enabled : Bool
  options : List String
  dropdownOptions : List DropdownOption
  colorFormat : String
  checkboxTrueValue : String
  checkboxFalseValue : String
  groupId : Option String
  order : ℤ
  syncEnabled : Bool
  syncVariable : String
  syncScope : String
deriving DecidableEq

/-- The SliderGroup interface (index.ts:775-780). -/
structure SliderGroup where
  id : String
  name : String
  collapsed : Bool
  order : ℤ
deriving DecidableEq

/-- The SliderCollection interface (index.ts:782-788). -/
structure SliderCollection where
  active : Bool
  name : String
  sliders : List Slider
  presets : List String
  groups : List SliderGroup
deriving DecidableEq

/-- JS truthiness of slider.groupId (null or the empty string are falsy). -/
def truthyGroupId (g : Option String) : Bool :=
  match g with
  | none => false
  | some s => s != ""

/-- The filtered non-empty options list of a MultiSelect slider
(index.ts:2159 and 2502). -/
def validOptionsOf (sl : Slider) : List String :=
  sl.options.filter (fun o => jsTrim o != "")

/-- Value normalization performed when the live panel renders a MultiSelect
slider (index.ts:2153-2183): with fewer than two valid options the control
is not rendered and the value is untouched; otherwise a value outside
[0, validOptions.length) is reset to 0. -/
def renderMultiSelectValue (sl : Slider) : Slider :=
  let validOptions := validOptionsOf sl
  if validOptions.length < 2 then sl
  else if jsLtNum (jsToNumber sl.value) 0 ||
          jsGeNum (jsToNumber sl.value) (validOptions.length : ℤ) then
    { sl with value := .num 0 }
  else sl

/-- String form of a slider value (JS toString), used for the default
(Numeric) macro handler and for fallback outputs; exact for the integral
values the claims exercise. -/
def svalToString : SVal → String
  | .num q => if q.den = 1 then toString q.num else toString q
  | .str s => s
  | .bool b => if b then "true" else "false"

/-- JS validOptions[value] || '' (index.ts:2503): a numeric index returns
the element when it is an exact integer within bounds; anything else is
undefined, and the || turns it (or an empty element) into ''. -/
def optionAtNum (l : List String) (v : SVal) : String :=
  match jsToNumber v with
  | some q => if q.den = 1 ∧ 0 ≤ q.num then l.getD q.num.toNat "" else ""
  | none => ""

/-- The macro handler selected for a slider by updateSliderMacros
(index.ts:2499-2529), evaluated at the slider's current value.  A
non-string Color value is passed through JS coercion and the regex test of
formatColor rejects every such string, exactly as the '#ffffff' fallback
does, so both are modelled by the fallback. -/
def handlerOutput (sl : Slider) : String :=
  if sl.type = "MultiSelect" then optionAtNum (validOptionsOf sl) sl.value
  else if sl.type = "Boolean" then
    if sl.value = .num 1 then "true" else "false"
  else if sl.type = "Dropdown" then
    match sl.value with
    | .str key =>
        match sl.dropdownOptions.find? (fun o => o.key == key) with
        | some o => o.value
        | none => key
    | v => svalToString v
  else if sl.type = "Color" then
    let hex := match sl.value with
      | .str s => if s != "" then s else "#ffffff"
      | _ => "#ffffff"
    formatColor hex (if sl.colorFormat = "" then "hex" else sl.colorFormat)
  else if sl.type = "Checkbox" then
    if sl.value = .bool true then
      (if sl.checkboxTrueValue = "" then "true" else sl.checkboxTrueValue)
    else
      (if sl.checkboxFalseValue = "" then "false" else sl.checkboxFalseValue)
  else svalToString sl.value

/-- The registration guard of updateSliderMacros (index.ts:2495): the
loop body returns early unless the slider is enabled and its property is
truthy.  The display name is not part of the guard. -/
def regCond (sl : Slider) : Bool := sl.enabled && sl.property != ""

/-- The macro registrations performed by updateSliderMacros
(index.ts:2488-2542) on a settings object, as the ordered list of
(property, current handler output) pairs: nothing when no collection is
active, otherwise one registration per slider of the active collection
that passes the guard, in array order. -/
def updateSliderMacrosRegs (collections : List SliderCollection) :
    List (String × String) :=
  match collections.find? (fun c => c.active) with
  | none => []
  | some col =>
      col.sliders.filterMap (fun sl =>
        if regCond sl then some (sl.property, handlerOutput sl) else none)

/-- The host variable store: one association list per scope (map-like
shape with get/set/has). -/
structure VarStore where
  localVars : List (String × SVal)
  globalVars : List (String × SVal)
deriving DecidableEq

/-- Scope selection (scope === 'global' ? variables.global :
variables.local): anything other than 'global' selects local. -/
def scopeVars (st : VarStore) (scope : String) : List (String × SVal) :=
  if scope = "global" then st.globalVars else st.localVars

/-- Map.set on an association list: overwrite the existing binding or
append a new one. -/
def setAssoc (l : List (String × SVal)) (k : String) (v : SVal) :
    List (String × SVal) :=
  if (l.find? (fun p => p.1 == k)).isSome then
    l.map (fun p => if p.1 == k then (k, v) else p)
  else l ++ [(k, v)]

/-- hasVariable (index.ts:614-626): false when the variables API is
absent, otherwise the has predicate of the scope map. -/
def hasVariable (name : String) (scope : String) (vars : Option VarStore) :
    Bool :=
  match vars with
  | none => false
  | some st => ((scopeVars st scope).find? (fun p => p.1 == name)).isSome

/-- setVariableValue (index.ts:590-606): false and unchanged when the
variables API is absent, otherwise set in the scope map and return true. -/
def setVariableValue (name : String) (value : SVal) (scope : String)
    (vars : Option VarStore) : Bool × Option VarStore :=
  match vars with
  | none => (false, none)
  | some st =>
      if scope = "global" then
        (true, some { st with globalVars := setAssoc st.globalVars name value })
      else
        (true, some { st with localVars := setAssoc st.localVars name value })

/-- syncSliderToVariable (index.ts:718-734): no-op returning false unless
syncEnabled and syncVariable are truthy; the scope defaults to 'local';
writes only when the variable already exists in that scope, and then
returns true. -/
def syncSliderToVariable (sl : Slider) (vars : Option VarStore) :
    Bool × Option VarStore :=
  if ¬sl.syncEnabled ∨ sl.syncVariable = "" then (false, vars)
  else
    let scope := if sl.syncScope = "" then "local" else sl.syncScope
    if hasVariable sl.syncVariable scope vars = false then (false, vars)
    else
      let r := setVariableValue sl.syncVariable sl.value scope vars
      (true, r.2)

/-- A convenient fully concrete slider used by witnesses below. -/
def baseSlider : Slider :=
  { name := "New Slider", property := "", type := "Numeric", min := "0"
    max := "1", step := "0.01", value := .num 0, enabled := true
    options := [], dropdownOptions := [], colorFormat := "hex"
    checkboxTrueValue := "true", checkboxFalseValue := "false"
    groupId := none, order := 0, syncEnabled := false, syncVariable := ""
    syncScope := "local" }

/-- The orders occupied by the combined ordering scope of a collection:
its groups plus its ungrouped sliders (the two arrays gathered by
getNextOrder, index.ts:815-817). -/
def combinedOrders (c : SliderCollection) : List ℤ :=
  c.groups.map (fun g => g.order) ++
    (c.sliders.filter (fun s => !truthyGroupId s.groupId)).map
      (fun s => s.order)

/-- getNextOrder (index.ts:814-819): Math.max over the combined scope plus
one, or 0 when the scope is empty. -/
def getNextOrder (c : SliderCollection) : ℤ :=
  match combinedOrders c with
  | [] => 0
  | x :: xs => xs.foldl (fun a b => if a ≤ b then b else a) x + 1

/-- The collection of the frozen default settings (index.ts:800-808). -/
def defaultCollection : SliderCollection :=
  { active := true, name := "Default", sliders := [], presets := []
    groups := [] }

/-- createSlider (index.ts:1092-1121): unshift a default slider whose
order comes from getNextOrder.  The default literal is baseSlider. -/
def createSlider (c : SliderCollection) : SliderCollection :=
  { c with sliders := { baseSlider with order := getNextOrder c } :: c.sliders }

/-- createGroup (index.ts:1124-1139): push a new group whose order comes
from getNextOrder; the generated id is a parameter. -/
def createGroup (c : SliderCollection) (id : String) : SliderCollection :=
  { c with groups := c.groups ++
      [{ id := id, name := "New Group", collapsed := false
         order := getNextOrder c }] }

/-- The duplicate-button handler (index.ts:1614-1635): push a copy of the
slider with ' Copy' appended to the name, an empty property, and a fresh
order; i is the index of the duplicated slider. -/
def duplicateSlider (c : SliderCollection) (i : Nat) : SliderCollection :=
  match c.sliders[i]? with
  | none => c
  | some sl =>
      let ord := getNextOrder c
      let copy := { sl with name := sl.name ++ " Copy", property := "", order := ord }
      { c with sliders := c.sliders ++ [copy] }

/-- One entry of the unified items list of the move handlers; object
references of the source are modelled as indices into the groups array
(isGroup = true) or the sliders array (isGroup = false). -/
structure MoveItem where
  order : ℤ
  isGroup : Bool
  ref : Nat
deriving DecidableEq

/-- The unified items list built by the ungrouped-slider move handlers
(index.ts:1699-1702 and 1738-1741): groups, then ungrouped sliders,
sorted by order (JS Array.sort is stable, as is mergeSort). -/
def moveItems (c : SliderCollection) : List MoveItem :=
  let gItems := c.groups.enum.map
    (fun p => ({ order := p.2.order, isGroup := true, ref := p.1 } : MoveItem))
  let sItems := (c.sliders.enum.filter
      (fun p => !truthyGroupId p.2.groupId)).map
    (fun p => ({ order := p.2.order, isGroup := false, ref := p.1 } : MoveItem))
  (gItems ++ sItems).mergeSort (fun a b => decide (a.order ≤ b.order))

/-- The sorted sibling list of the grouped-slider move handlers
(index.ts:1685-1687): (array index, slider) pairs with the slider's
groupId, sorted by order. -/
def groupScope (c : SliderCollection) (gid : Option String) :
    List (Nat × Slider) :=
  (c.sliders.enum.filter (fun p => p.2.groupId == gid)).mergeSort
    (fun a b => decide (a.2.order ≤ b.2.order))

/-- The two-assignment order swap between the sliders at indices i and j
(a captured temporary holds the first order, as in the source). -/
def swapSliderOrders (c : SliderCollection) (i j : Nat) : SliderCollection :=
  match c.sliders[i]?, c.sliders[j]? with
  | some si, some sj =>
      let ss := (c.sliders.set i { si with order := sj.order }).set j { sj with order := si.order }
      { c with sliders := ss }
  | _, _ => c

/-- The order swap between slider i and group j. -/
def swapSliderWithGroup (c : SliderCollection) (i j : Nat) :
    SliderCollection :=
  match c.sliders[i]?, c.groups[j]? with
  | some si, some gj =>
      { c with
        sliders := c.sliders.set i { si with order := gj.order }
        groups := c.groups.set j { gj with order := si.order } }
  | _, _ => c

/-- The order swap between the groups at indices i and j. -/
def swapGroupOrders (c : SliderCollection) (i j : Nat) : SliderCollection :=
  match c.groups[i]?, c.groups[j]? with
  | some gi, some gj =>
      let gs := (c.groups.set i { gi with order := gj.order }).set j { gj with order := gi.order }
      { c with groups := gs }
  | _, _ => c

/-- The up-button handler of a slider card (index.ts:1677-1714): inside a
group, swap orders with the previous sibling of the sorted group scope;
otherwise swap with the previous item of the unified list.  First item:
no-op. -/
def sliderMoveUp (c : SliderCollection) (i : Nat) : SliderCollection :=
  match c.sliders[i]? with
  | none => c
  | some slider =>
    if truthyGroupId slider.groupId then
      let scope := groupScope c slider.groupId
      let idx := scope.findIdx (fun p => p.1 == i)
      if 0 < idx then
        match scope[idx - 1]? with
        | some prev => swapSliderOrders c i prev.1
        | none => c
      else c
    else
      let items := moveItems c
      let idx := items.findIdx (fun it => !it.isGroup && it.ref == i)
      if 0 < idx then
        match items[idx - 1]? with
        | some prev =>
            if prev.isGroup then swapSliderWithGroup c i prev.ref
            else swapSliderOrders c i prev.ref
        | none => c
      else c

/-- The down-button handler of a slider card (index.ts:1716-1753).  Last
item: no-op. -/
def sliderMoveDown (c : SliderCollection) (i : Nat) : SliderCollection :=
  match c.sliders[i]? with
  | none => c
  | some slider =>
    if truthyGroupId slider.groupId then
      let scope := groupScope c slider.groupId
      let idx := scope.findIdx (fun p => p.1 == i)
      if idx + 1 < scope.length then
        match scope[idx + 1]? with
        | some nxt => swapSliderOrders c i nxt.1
        | none => c
      else c
    else
      let items := moveItems c
      let idx := items.findIdx (fun it => !it.isGroup && it.ref == i)
      if idx + 1 < items.length then
        match items[idx + 1]? with
        | some nxt =>
            if nxt.isGroup then swapSliderWithGroup c i nxt.ref
            else swapSliderOrders c i nxt.ref
        | none => c
      else c

/-- One entry of getOrderedItems (index.ts:1785-1790): a group is
identified by its id, an ungrouped slider by its property. -/
structure OrderedItem where
  order : ℤ
  isGroup : Bool
  id : String
deriving DecidableEq

/-- getOrderedItems (index.ts:1785-1790). -/
def orderedItems (c : SliderCollection) : List OrderedItem :=
  let gItems := c.groups.map
    (fun g => ({ order := g.order, isGroup := true, id := g.id } : OrderedItem))
  let sItems := (c.sliders.filter (fun s => !truthyGroupId s.groupId)).map
    (fun s => ({ order := s.order, isGroup := false, id := s.property } : OrderedItem))
  (gItems ++ sItems).mergeSort (fun a b => decide (a.order ≤ b.order))

/-- The up-button handler of a group card (index.ts:1865-1890): swap
orders with the previous item of getOrderedItems, located by id (for a
group) or by property among ungrouped sliders (for a slider); first item:
no-op. -/
def groupMoveUp (c : SliderCollection) (gi : Nat) : SliderCollection :=
  match c.groups[gi]? with
  | none => c
  | some group =>
    let items := orderedItems c
    let idx := items.findIdx (fun it => it.isGroup && it.id == group.id)
    if 0 < idx then
      match items[idx - 1]? with
      | none => c
      | some prev =>
        if prev.isGroup then
          match c.groups.enum.find? (fun p => p.2.id == prev.id) with
          | some pj => swapGroupOrders c gi pj.1
          | none => c
        else
          match c.sliders.enum.find?
              (fun p => p.2.property == prev.id && !truthyGroupId p.2.groupId) with
          | some pj => swapSliderWithGroup c pj.1 gi
          | none => c
    else c

/-- The down-button handler of a group card (index.ts:1892-1917).  Last
item: no-op. -/
def groupMoveDown (c : SliderCollection) (gi : Nat) : SliderCollection :=
  match c.groups[gi]? with
  | none => c
  | some group =>
    let items := orderedItems c
    let idx := items.findIdx (fun it => it.isGroup && it.id == group.id)
    if idx + 1 < items.length then
      match items[idx + 1]? with
      | none => c
      | some nxt =>
        if nxt.isGroup then
          match c.groups.enum.find? (fun p => p.2.id == nxt.id) with
          | some pj => swapGroupOrders c gi pj.1
          | none => c
        else
          match c.sliders.enum.find?
              (fun p => p.2.property == nxt.id && !truthyGroupId p.2.groupId) with
          | some pj => swapSliderWithGroup c pj.1 gi
          | none => c
    else c

/-- The delete-button handler of a group card (index.ts:1849-1863), after
confirmation: ungroup every slider referencing the group's id, then splice
the group out at its index. -/
def deleteGroup (c : SliderCollection) (gi : Nat) : SliderCollection :=
  match c.groups[gi]? with
  | none => c
  | some group =>
      { c with
        sliders := c.sliders.map (fun s =>
          if s.groupId == some group.id then { s with groupId := none } else s)
        groups := c.groups.eraseIdx gi }

/-- Reachability of a collection from the default state under the
create-slider, create-group, duplicate-slider and move operations. -/
inductive ReachC : SliderCollection → Prop where
  | init : ReachC defaultCollection
  | createS {c} : ReachC c → ReachC (createSlider c)
  | createG {c} (id : String) : ReachC c → ReachC (createGroup c id)
  | dup {c} (i : Nat) : ReachC c → ReachC (duplicateSlider c i)
  | sUp {c} (i : Nat) : ReachC c → ReachC (sliderMoveUp c i)
  | sDown {c} (i : Nat) : ReachC c → ReachC (sliderMoveDown c i)
  | gUp {c} (i : Nat) : ReachC c → ReachC (groupMoveUp c i)
  | gDown {c} (i : Nat) : ReachC c → ReachC (groupMoveDown c i)

/-- The JS values the syncEnabled field can hold before and after
migration: undefined, the empty string (the && chain at index.ts:884
returns variableSource itself when it is ''), or a boolean. -/
inductive JsBoolish where
  | undef
  | estr
  | jb (b : Bool)
deriving DecidableEq

/-- A persisted slider record as getSettings sees it.  Fields that may be
absent are Options with none meaning the JS field is undefined; groupId
distinguishes undefined (none) from null (some none).  The configuration
fields getSettings never reads or writes (type, min, max, step, options,
dropdownOptions, colorFormat, checkbox values, enabled) pass through every
branch untouched and are represented by the name, property and value
fields kept here. -/
structure RawSlider where
  name : String
  property : String
  value : SVal
  groupId : Option (Option String)
  order : Option ℤ
  syncEnabled : JsBoolish
  syncVariable : Option String
  syncScope : Option String
  syncToVariable : Option Bool
  variableSource : Option String
  variableScope : Option String
deriving DecidableEq

/-- A persisted group record; order may be absent. -/
structure RawGroup where
  id : String
  name : String
  collapsed : Bool
  order : Option ℤ
deriving DecidableEq

/-- A persisted collection; the groups array may be absent. -/
structure RawCollection where
  active : Bool
  name : String
  sliders : List RawSlider
  presets : List String
  groups : Option (List RawGroup)
deriving DecidableEq

/-- The persisted root aggregate; the collections key may be absent. -/
structure RawSettings where
  collections : Option (List RawCollection)
deriving DecidableEq

/-- The collection of the frozen defaultSettings (index.ts:800-808). -/
def defaultRawCollection : RawCollection :=
  { active := true, name := "Default", sliders := [], presets := []
    groups := some [] }

/-- The frozen defaultSettings (index.ts:800-808). -/
def defaultRawSettings : RawSettings :=
  { collections := some [defaultRawCollection] }

/-- JS a || b for an optionally-undefined string a with fallback b:
undefined and the empty string are falsy. -/
def orStr (a : Option String) (b : String) : String :=
  match a with
  | some s => if s = "" then b else s
  | none => b

/-- The sync-field migration of one slider (index.ts:878-892), run when
syncEnabled is undefined: syncEnabled becomes the JS value of
(syncToVariable === true || (variableSource && variableSource.trim() !==
'')), syncVariable and syncScope are backfilled through || chains, and
the three deprecated fields are deleted. -/
def migrateSync (sl : RawSlider) : RawSlider :=
  let se : JsBoolish :=
    if sl.syncToVariable = some true then .jb true
    else
      match sl.variableSource with
      | none => .undef
      | some s => if s = "" then .estr else .jb (jsTrim s != "")
  let sv := orStr sl.syncVariable (orStr sl.variableSource "")
  let sc := orStr sl.syncScope (orStr sl.variableScope "local")
  { sl with
    syncEnabled := se
    syncVariable := some sv
    syncScope := some sc
    syncToVariable := none
    variableSource := none
    variableScope := none }

/-- One iteration of the per-slider migration loop of getSettings
(index.ts:866-893), threading the running maximum order: a missing
groupId becomes null; a missing order becomes the incremented counter; an
existing order folds into the maximum; missing sync fields are
migrated. -/
def migSlider1 (acc : ℤ) (sl : RawSlider) : RawSlider × ℤ :=
  let sl1 :=
    if sl.groupId = none then { sl with groupId := some none } else sl
  let st : RawSlider × ℤ :=
    match sl1.order with
    | none => ({ sl1 with order := some (acc + 1) }, acc + 1)
    | some o => (sl1, if acc ≤ o then o else acc)
  (if st.1.syncEnabled = .undef then migrateSync st.1 else st.1, st.2)

/-- The per-slider migration loop (index.ts:866-893), seeded at
maxGroupOrder. -/
def migSliders : ℤ → List RawSlider → List RawSlider × ℤ
  | acc, [] => ([], acc)
  | acc, sl :: rest =>
    ((migSlider1 acc sl).1 :: (migSliders (migSlider1 acc sl).2 rest).1,
     (migSliders (migSlider1 acc sl).2 rest).2)

/-- The per-group migration loop of getSettings (index.ts:856-862):
a missing order becomes the group's positional index; the running maximum
starts at -1 and folds in every (possibly just assigned) order. -/
def migGroups : ℤ → Nat → List RawGroup → List RawGroup × ℤ
  | acc, _, [] => ([], acc)
  | acc, i, g :: rest =>
    let g1 :=
      match g.order with
      | none => { g with order := some (i : ℤ) }
      | some _ => g
    let o := g1.order.getD 0
    let acc1 := if acc ≤ o then o else acc
    let r := migGroups acc1 (i + 1) rest
    (g1 :: r.1, r.2)

/-- What one pass of the slider migration guarantees: groupId and order
are defined, and whenever syncEnabled is still undefined (which the
migration itself can produce when both legacy fields were absent) the
legacy fields are deleted and the sync fields are backfilled, with a
non-empty scope. -/
def sliderMigrated (sl : RawSlider) : Prop :=
  sl.groupId ≠ none ∧ sl.order ≠ none ∧
  (sl.syncEnabled = .undef →
    sl.syncToVariable = none ∧ sl.variableSource = none ∧
    sl.variableScope = none ∧ (∃ v, sl.syncVariable = some v) ∧
    (∃ sc, sl.syncScope = some sc ∧ sc ≠ ""))

/-- The per-collection migration of getSettings (index.ts:850-894):
guarantee a groups array, migrate group orders, then migrate sliders with
the counter seeded at the maximum group order. -/
def migrateCollection (c : RawCollection) : RawCollection :=
  let gs := c.groups.getD []
  let gr := migGroups (-1) 0 gs
  let sr := migSliders gr.2 c.sliders
  { c with groups := some gr.1, sliders := sr.1 }

/-- The minimum-one-collection repair of getSettings (index.ts:839-842):
push the default collection when the array is empty. -/
def ensureNonempty (l : List RawCollection) : List RawCollection :=
  if l.length = 0 then l ++ [defaultRawCollection] else l

/-- The at-least-one-active repair of getSettings (index.ts:844-847):
force the first collection active when none is.  (Note the source only
guarantees at least one active collection, not exactly one.) -/
def ensureActive (l : List RawCollection) : List RawCollection :=
  if l.any (fun c => c.active) then l
  else
    match l with
    | [] => []
    | c :: rest => { c with active := true } :: rest

/-- getSettings (index.ts:821-897) as a function of the persisted value
(none models an absent settings object): clone the frozen default when
absent, backfill missing default keys, guarantee at least one collection,
force the first collection active when none is, then migrate every
collection. -/
def getSettings (input : Option RawSettings) : RawSettings :=
  let s := input.getD defaultRawSettings
  let cols :=
    (if s.collections = none then defaultRawSettings.collections
     else s.collections).getD []
  { collections :=
      some ((ensureActive (ensureNonempty cols)).map migrateCollection) }

/-- Number of active collections in a settings object. -/
def countActive (s : RawSettings) : Nat :=
  (s.collections.getD []).countP (fun c => c.active)

/-- An empty persisted collection with a given active flag and name. -/
def mkRawCol (a : Bool) (n : String) : RawCollection :=
  { active := a, name := n, sliders := [], presets := [], groups := some [] }

/-- A persisted settings object in which two collections are both marked
active. -/
def twoActiveRaw : RawSettings :=
  { collections := some [mkRawCol true "A", mkRawCol true "B"] }

/-- A persisted settings object with exactly one active collection. -/
def oneActiveRaw : RawSettings :=
  { collections := some [mkRawCol true "A", mkRawCol false "B"] }

/-- createCollection (index.ts:1039-1061): a cancelled prompt (empty
name) or a duplicate name aborts; otherwise every collection is
deactivated and a fresh active collection is pushed (the pushed literal
carries no groups field). -/
def createCollection (input : Option RawSettings) (name : String) :
    RawSettings :=
  if name = "" then getSettings input
  else if ((getSettings input).collections.getD []).any
      (fun c => c.name == name) then getSettings input
  else
    { collections :=
        some ((((getSettings input).collections.getD []).map
            (fun c => { c with active := false })) ++
          [{ active := true, name := name, sliders := [], presets := []
             groups := none }]) }

/-- deleteCollection (index.ts:1015-1037): refuse to delete the last
collection; find the active collection; after confirmation splice it out
and unconditionally activate the first remaining collection. -/
def deleteCollection (input : Option RawSettings) (confirm : Bool) :
    RawSettings :=
  if ((getSettings input).collections.getD []).length = 1 then
    getSettings input
  else
    match ((getSettings input).collections.getD []).findIdx?
        (fun c => c.active) with
    | none => getSettings input
    | some i =>
      if !confirm then getSettings input
      else
        match ((getSettings input).collections.getD []).eraseIdx i with
        | [] => { collections := some [] }
        | c :: rest =>
            { collections := some ({ c with active := true } :: rest) }

/-- The collection-select change handler (index.ts:932-939): every
collection's active flag becomes (its name === the selected name). -/
def switchActive (s : RawSettings) (selectedName : String) : RawSettings :=
  { collections :=
      some ((s.collections.getD []).map
        (fun c => { c with active := c.name == selectedName })) }

/-- Lookup of a variable's value in a scope of the (possibly absent)
variable store. -/
def lookupVar (name scope : String) (vars : Option VarStore) : Option SVal :=
  match vars with
  | none => none
  | some st =>
      ((scopeVars st scope).find? (fun p => p.1 == name)).map (fun p => p.2)

/-- The scope string syncSliderToVariable actually uses:
slider.syncScope || 'local'. -/
def effectiveScope (sl : Slider) : String :=
  if sl.syncScope = "" then "local" else sl.syncScope

/-- The MultiSelect slider of spec scenario 12: options red and blue,
value 5. -/
def msExample : Slider :=
  { baseSlider with
    type := "MultiSelect"
    options := ["red", "blue"]
    value := .num 5 }

/-- An enabled slider with an empty display name and a bound property. -/
def unnamedSlider : Slider := { baseSlider with name := "", property := "p" }

/-- A one-collection settings list holding only unnamedSlider. -/
def unnamedCol : SliderCollection :=
  { active := true, name := "Default", sliders := [unnamedSlider]
    presets := [], groups := [] }

/-- Move-boundary witness data: a group of order 0. -/
def w9Group : SliderGroup :=
  { id := "g1", name := "G", collapsed := false, order := 0 }

/-- Move-boundary witness data: a slider inside group g1. -/
def w9SliderA : Slider :=
  { baseSlider with name := "A", property := "pA", groupId := some "g1", order := 1 }

/-- Move-boundary witness data: an ungrouped slider of order 2. -/
def w9SliderB : Slider :=
  { baseSlider with name := "B", property := "pB", order := 2 }

/-- Move-boundary witness collection: one group (first in the combined
scope), one grouped slider (alone in its group scope) and one ungrouped
slider (last in the combined scope). -/
def W9 : SliderCollection :=
  { active := true, name := "W", sliders := [w9SliderA, w9SliderB]
    presets := [], groups := [w9Group] }

/-- Move-boundary witness collection: two ungrouped sliders only, so the
first slider heads the combined scope. -/
def W9c : SliderCollection :=
  { active := true, name := "Wc"
    sliders := [{ baseSlider with name := "C", property := "pC", order := 1 },
                { baseSlider with name := "D", property := "pD", order := 2 }]
    presets := [], groups := [] }

/-- Move-boundary witness collection: a single group, which is therefore
last in the combined scope. -/
def W9d : SliderCollection :=
  { active := true, name := "Wd", sliders := []
    presets := [], groups := [{ id := "g2", name := "G2", collapsed := false, order := 5 }] }

theorem roundFrac_bounds (lo hi p q : ℤ) (hq : 0 < q) (h1 : lo * q ≤ p)
    (h2 : p ≤ hi * q) : lo ≤ roundFrac p q ∧ roundFrac p q ≤ hi := by
  have h2q : (0 : ℤ) < 2 * q := by linarith
  unfold roundFrac
  rw [Int.fdiv_eq_ediv _ (le_of_lt h2q)]
  constructor
  · rw [Int.le_ediv_iff_mul_le h2q]
    nlinarith
  · have hlt : (2 * p + q) / (2 * q) < hi + 1 := by
      rw [Int.ediv_lt_iff_lt_mul h2q]
      nlinarith
    omega

theorem remFrac_six_id {p q : ℤ} (hq : 0 < q) (h1 : -q ≤ p) (h2 : p ≤ q) :
    remFrac p q 6 = p := by
  unfold remFrac
  have h0 : p.tdiv (6 * q) = 0 := by
    rcases le_or_lt 0 p with hp | hp
    · exact Int.tdiv_eq_zero_of_lt hp (by linarith)
    · have hneg : (-p).tdiv (6 * q) = 0 :=
        Int.tdiv_eq_zero_of_lt (by linarith) (by linarith)
      rw [Int.neg_tdiv] at hneg
      omega
  rw [h0]
  ring

theorem ite_hue_bounds {h0 : ℤ} (hlo : -60 ≤ h0) (hhi : h0 ≤ 300) :
    0 ≤ (if h0 < 0 then h0 + 360 else h0) ∧
      (if h0 < 0 then h0 + 360 else h0) < 360 := by
  split_ifs <;> omega

set_option maxHeartbeats 1000000 in
theorem hsvH_range (r g b : Nat) : 0 ≤ hsvH r g b ∧ hsvH r g b < 360 := by
  have h1 : r ≤ Nat.max r (Nat.max g b) := Nat.le_max_left _ _
  have h2 : g ≤ Nat.max r (Nat.max g b) :=
    le_trans (Nat.le_max_left _ _) (Nat.le_max_right _ _)
  have h3 : b ≤ Nat.max r (Nat.max g b) :=
    le_trans (Nat.le_max_right _ _) (Nat.le_max_right _ _)
  have h4 : Nat.min r (Nat.min g b) ≤ r := Nat.min_le_left _ _
  have h5 : Nat.min r (Nat.min g b) ≤ g :=
    le_trans (Nat.min_le_right _ _) (Nat.min_le_left _ _)
  have h6 : Nat.min r (Nat.min g b) ≤ b :=
    le_trans (Nat.min_le_right _ _) (Nat.min_le_right _ _)
  simp only [hsvH]
  set mx := Nat.max r (Nat.max g b) with hmxd
  set mn := Nat.min r (Nat.min g b) with hmnd
  by_cases hdl : (mx : ℤ) - (mn : ℤ) ≠ 0
  · rw [if_pos hdl]
    have hpos : (0 : ℤ) < (mx : ℤ) - (mn : ℤ) := by
      have : (mn : ℤ) ≤ (mx : ℤ) := by exact_mod_cast le_trans h4 h1
      omega
    set dl : ℤ := (mx : ℤ) - (mn : ℤ) with hdld
    have hgz : (g : ℤ) - (b : ℤ) ≤ dl := by
      have hg : (g : ℤ) ≤ (mx : ℤ) := by exact_mod_cast h2
      have hb : (mn : ℤ) ≤ (b : ℤ) := by exact_mod_cast h6
      omega
    have hgz2 : -dl ≤ (g : ℤ) - (b : ℤ) := by
      have hb : (b : ℤ) ≤ (mx : ℤ) := by exact_mod_cast h3
      have hg : (mn : ℤ) ≤ (g : ℤ) := by exact_mod_cast h5
      omega
    apply ite_hue_bounds <;>
    · by_cases hmr : mx = r
      · rw [if_pos hmr, remFrac_six_id hpos hgz2 hgz]
        rcases roundFrac_bounds (-60) 300 (((g : ℤ) - (b : ℤ)) * 60) dl hpos
          (by nlinarith) (by nlinarith) with ⟨ha, hb⟩
        omega
      · rw [if_neg hmr]
        by_cases hmg : mx = g
        · rw [if_pos hmg]
          have hrz : (r : ℤ) ≤ (mx : ℤ) := by exact_mod_cast h1
          have hrz2 : (mn : ℤ) ≤ (r : ℤ) := by exact_mod_cast h4
          have hbz : (b : ℤ) ≤ (mx : ℤ) := by exact_mod_cast h3
          have hbz2 : (mn : ℤ) ≤ (b : ℤ) := by exact_mod_cast h6
          rcases roundFrac_bounds (-60) 300 ((((b : ℤ) - (r : ℤ)) + 2 * dl) * 60)
            dl hpos (by nlinarith) (by nlinarith) with ⟨ha, hb⟩
          omega
        · rw [if_neg hmg]
          have hrz : (r : ℤ) ≤ (mx : ℤ) := by exact_mod_cast h1
          have hrz2 : (mn : ℤ) ≤ (r : ℤ) := by exact_mod_cast h4
          have hgg : (g : ℤ) ≤ (mx : ℤ) := by exact_mod_cast h2
          have hgg2 : (mn : ℤ) ≤ (g : ℤ) := by exact_mod_cast h5
          rcases roundFrac_bounds (-60) 300 ((((r : ℤ) - (g : ℤ)) + 4 * dl) * 60)
            dl hpos (by nlinarith) (by nlinarith) with ⟨ha, hb⟩
          omega
  · rw [if_neg hdl]
    omega

theorem hsvH_of_max_eq_min (r g b : Nat)
    (h : Nat.max r (Nat.max g b) = Nat.min r (Nat.min g b)) :
    hsvH r g b = 0 := by
  simp only [hsvH, h]
  simp

/-- C7: formatColor maps '#FF0000' to 'rgb(255, 0, 0)' and
'hsv(0, 100%, 100%)', '#00FF00' to 'hsv(120, 100%, 100%)'; on every valid
#RRGGBB input the hex format returns the uppercased string, the rgb
format prints the channels parsed from the hex pairs, and the hsv format
prints hsv(h, s%, v%) with the hue in [0, 360) and hue 0 whenever the
maximum and minimum channels coincide. -/
theorem formatColor_conversions :
    formatColor "#FF0000" "rgb" = "rgb(255, 0, 0)" ∧
    formatColor "#FF0000" "hsv" = "hsv(0, 100%, 100%)" ∧
    formatColor "#00FF00" "hsv" = "hsv(120, 100%, 100%)" ∧
    ∀ s r g b, isValidHexColor s = true → parseHexColor s = (r, g, b) →
      formatColor s "hex" = jsToUpper s ∧
      formatColor s "rgb" = rgbString r g b ∧
      formatColor s "hsv" =
        hsvString (hsvH r g b) (hsvS r g b) (hsvV r g b) ∧
      0 ≤ hsvH r g b ∧ hsvH r g b < 360 ∧
      (Nat.max r (Nat.max g b) = Nat.min r (Nat.min g b) → hsvH r g b = 0) := by
  refine ⟨by decide, by decide, by decide, ?_⟩
  intro s r g b hv hp
  refine ⟨?_, ?_, ?_, (hsvH_range r g b).1, (hsvH_range r g b).2,
    hsvH_of_max_eq_min r g b⟩
  · simp [formatColor, hv]
  · simp [formatColor, hv, hp]
  · simp [formatColor, hv, hp]

/-- Witness for C7's universally quantified part at the concrete valid
input '#12AB34', whose channels are (18, 171, 52). -/
theorem formatColor_conversions_witness :
    formatColor "#12AB34" "hex" = jsToUpper "#12AB34" ∧
    formatColor "#12AB34" "rgb" = rgbString 18 171 52 ∧
    formatColor "#12AB34" "hsv" =
      hsvString (hsvH 18 171 52) (hsvS 18 171 52) (hsvV 18 171 52) ∧
    0 ≤ hsvH 18 171 52 ∧ hsvH 18 171 52 < 360 ∧
    (Nat.max 18 (Nat.max 171 52) = Nat.min 18 (Nat.min 171 52) →
      hsvH 18 171 52 = 0) :=
  formatColor_conversions.2.2.2 "#12AB34" 18 171 52 (by decide) (by decide)

/-- C10: formatColor is total on arbitrary strings, and every input that
does not match #RRGGBB behaves exactly as '#ffffff' does: uppercased hex
'#FFFFFF', 'rgb(255, 255, 255)', and 'hsv(0, 0%, 100%)'. -/
theorem formatColor_invalid_defaults (s : String)
    (h : isValidHexColor s = false) :
    formatColor s "hex" = "#FFFFFF" ∧
    formatColor s "rgb" = "rgb(255, 255, 255)" ∧
    formatColor s "hsv" = "hsv(0, 0%, 100%)" := by
  refine ⟨?_, ?_, ?_⟩ <;> · simp [formatColor, h]; decide

/-- Witness for C10 at the invalid input 'red'. -/
theorem formatColor_invalid_defaults_witness :
    isValidHexColor "red" = false ∧
    (formatColor "red" "hex" = "#FFFFFF" ∧
     formatColor "red" "rgb" = "rgb(255, 255, 255)" ∧
     formatColor "red" "hsv" = "hsv(0, 0%, 100%)") :=
  ⟨by decide, formatColor_invalid_defaults "red" (by decide)⟩

theorem find?_overwrite (l : List (String × SVal)) (k : String) (v : SVal)
    (h : (l.find? (fun p => p.1 == k)).isSome = true) :
    (l.map (fun p => if p.1 == k then (k, v) else p)).find?
      (fun p => p.1 == k) = some (k, v) := by
  induction l with
  | nil => simp at h
  | cons hd tl ih =>
    cases hkb : (hd.1 == k) with
    | true =>
      have he : hd.1 = k := by simpa using hkb
      simp [List.map_cons, he]
    | false =>
      simp only [List.find?_cons, hkb] at h
      simp only [List.map_cons, hkb, Bool.false_eq_true, if_false,
        List.find?_cons]
      exact ih h

theorem find?_appended (l : List (String × SVal)) (k : String) (v : SVal)
    (h : l.find? (fun p => p.1 == k) = none) :
    (l ++ [(k, v)]).find? (fun p => p.1 == k) = some (k, v) := by
  rw [List.find?_append, h]
  simp

theorem find?_setAssoc_self (l : List (String × SVal)) (k : String)
    (v : SVal) :
    (setAssoc l k v).find? (fun p => p.1 == k) = some (k, v) := by
  unfold setAssoc
  by_cases h : (l.find? (fun p => p.1 == k)).isSome = true
  · rw [if_pos h]
    exact find?_overwrite l k v h
  · rw [if_neg (by simpa using h)]
    apply find?_appended
    exact Option.not_isSome_iff_eq_none.mp (by simpa using h)

theorem lookupVar_setVariableValue (st : VarStore) (name : String)
    (v : SVal) (scope : String) :
    lookupVar name scope (setVariableValue name v scope (some st)).2 =
      some v := by
  unfold setVariableValue lookupVar scopeVars
  by_cases h : scope = "global" <;> simp [h, find?_setAssoc_self]

/-- C6: syncSliderToVariable is a no-op returning false when sync is
disabled or unconfigured, and when the target variable does not exist in
the requested scope; whenever it returns false the store is unchanged
(the variable is never created); it returns true exactly when syncEnabled
holds, syncVariable is non-empty and the variable exists in the effective
scope, and then the existing variable now holds the slider's value. -/
theorem syncSliderToVariable_spec (sl : Slider) (vars : Option VarStore) :
    (sl.syncEnabled = false ∨ sl.syncVariable = "" →
      syncSliderToVariable sl vars = (false, vars)) ∧
    (hasVariable sl.syncVariable (effectiveScope sl) vars = false →
      syncSliderToVariable sl vars = (false, vars)) ∧
    ((syncSliderToVariable sl vars).1 = true ↔
      sl.syncEnabled = true ∧ sl.syncVariable ≠ "" ∧
        hasVariable sl.syncVariable (effectiveScope sl) vars = true) ∧
    ((syncSliderToVariable sl vars).1 = false →
      (syncSliderToVariable sl vars).2 = vars) ∧
    ((syncSliderToVariable sl vars).1 = true →
      lookupVar sl.syncVariable (effectiveScope sl)
        (syncSliderToVariable sl vars).2 = some sl.value) := by
  by_cases hE : sl.syncEnabled = true
  · by_cases hV : sl.syncVariable = ""
    · have hrun : syncSliderToVariable sl vars = (false, vars) := by
        unfold syncSliderToVariable
        rw [if_pos (Or.inr hV)]
      refine ⟨fun _ => hrun, fun _ => hrun, ?_, fun _ => by rw [hrun], ?_⟩
      · rw [hrun]
        simp [hV]
      · intro h
        rw [hrun] at h
        cases h
    · by_cases hH :
        hasVariable sl.syncVariable (effectiveScope sl) vars = true
      · have hvars : ∃ st, vars = some st := by
          cases vars with
          | none => simp [hasVariable] at hH
          | some st => exact ⟨st, rfl⟩
        obtain ⟨st, rfl⟩ := hvars
        have hrun : syncSliderToVariable sl (some st) =
            (true, (setVariableValue sl.syncVariable sl.value
              (effectiveScope sl) (some st)).2) := by
          unfold syncSliderToVariable
          rw [if_neg (by simp [hE, hV])]
          rw [show (if sl.syncScope = "" then "local" else sl.syncScope) =
            effectiveScope sl from rfl]
          rw [if_neg (by simp [hH])]
        refine ⟨?_, ?_, ?_, ?_, ?_⟩
        · intro h
          rcases h with h | h
          · rw [hE] at h
            cases h
          · exact absurd h hV
        · intro h
          rw [hH] at h
          cases h
        · rw [hrun]
          simp [hE, hV, hH]
        · intro h
          rw [hrun] at h
          cases h
        · intro _
          rw [hrun]
          exact lookupVar_setVariableValue st sl.syncVariable sl.value
            (effectiveScope sl)
      · have hH2 : hasVariable sl.syncVariable (effectiveScope sl) vars =
            false := by
          simpa using hH
        have hrun : syncSliderToVariable sl vars = (false, vars) := by
          unfold syncSliderToVariable
          rw [if_neg (by simp [hE, hV])]
          rw [show (if sl.syncScope = "" then "local" else sl.syncScope) =
            effectiveScope sl from rfl]
          rw [if_pos hH2]
        refine ⟨fun _ => hrun, fun _ => hrun, ?_, fun _ => by rw [hrun], ?_⟩
        · rw [hrun]
          simp [hH2]
        · intro h
          rw [hrun] at h
          cases h
  · have hE2 : sl.syncEnabled = false := by simpa using hE
    have hrun : syncSliderToVariable sl vars = (false, vars) := by
      unfold syncSliderToVariable
      rw [if_pos (Or.inl (by simp [hE2]))]
    refine ⟨fun _ => hrun, fun _ => hrun, ?_, fun _ => by rw [hrun], ?_⟩
    · rw [hrun]
      simp [hE2]
    · intro h
      rw [hrun] at h
      cases h

/-- Witness for C6 at a concrete slider and store: the variable exists
only in the global scope while the requested scope is local, so the sync
returns false and the store is untouched; with the variable in the local
scope the sync returns true and writes. -/
theorem syncSliderToVariable_spec_witness :
    (syncSliderToVariable
        { baseSlider with syncEnabled := true, syncVariable := "v" }
        (some { localVars := [], globalVars := [("v", .num 3)] }) =
      (false, some { localVars := [], globalVars := [("v", .num 3)] })) ∧
    ((syncSliderToVariable
        { baseSlider with syncEnabled := true, syncVariable := "v" }
        (some { localVars := [("v", .num 3)], globalVars := [] })).1 =
      true ↔ True) :=
  ⟨(syncSliderToVariable_spec
      { baseSlider with syncEnabled := true, syncVariable := "v" }
      (some { localVars := [], globalVars := [("v", .num 3)] })).2.1
      (by decide),
   by
    rw [(syncSliderToVariable_spec
      { baseSlider with syncEnabled := true, syncVariable := "v" }
      (some { localVars := [("v", .num 3)], globalVars := [] })).2.2.1]
    decide⟩

theorem filterMap_regs (sls : List Slider) :
    sls.filterMap (fun sl =>
      if regCond sl then some (sl.property, handlerOutput sl) else none) =
    (sls.filter regCond).map (fun sl => (sl.property, handlerOutput sl)) := by
  induction sls with
  | nil => rfl
  | cons hd tl ih =>
    cases h : regCond hd <;>
      simp [List.filterMap_cons, List.filter_cons, h, ih]

/-- C5 fails as stated: an enabled slider whose display name is empty but
whose property is 'p' still registers a macro (the name is never checked
by updateSliderMacros, only by the renderer). -/
theorem updateSliderMacros_registers_unnamed :
    updateSliderMacrosRegs [unnamedCol] = [("p", "0")] ∧
    unnamedSlider.name = "" ∧ unnamedSlider.enabled = true := by decide

/-- C5 amended: updateSliderMacros registers exactly one macro per slider
of the active collection that is enabled and has a non-empty property, in
array order; the display name is not consulted, and with no active
collection nothing is registered.  In particular a disabled slider, or
one with an empty property, never registers. -/
theorem updateSliderMacrosRegs_spec (cols : List SliderCollection) :
    (∀ col, cols.find? (fun c => c.active) = some col →
      updateSliderMacrosRegs cols =
        (col.sliders.filter regCond).map
          (fun sl => (sl.property, handlerOutput sl))) ∧
    (cols.find? (fun c => c.active) = none →
      updateSliderMacrosRegs cols = []) := by
  constructor
  · intro col h
    simp only [updateSliderMacrosRegs, h]
    exact filterMap_regs col.sliders
  · intro h
    simp [updateSliderMacrosRegs, h]

/-- Witness for C5's amended statement at a concrete settings list. -/
theorem updateSliderMacrosRegs_spec_witness :
    updateSliderMacrosRegs [unnamedCol] =
      (unnamedCol.sliders.filter regCond).map
        (fun sl => (sl.property, handlerOutput sl)) :=
  (updateSliderMacrosRegs_spec [unnamedCol]).1 unnamedCol (by decide)

theorem qLtInt_iff (q : ℚ) (n : ℤ) : qLtInt q n = true ↔ q < (n : ℚ) := by
  unfold qLtInt
  rw [decide_eq_true_iff]
  have hden : (0 : ℚ) < (q.den : ℚ) := by
    exact_mod_cast q.den_pos
  constructor
  · intro h
    calc q = (q.num : ℚ) / (q.den : ℚ) := (Rat.num_div_den q).symm
    _ < (n : ℚ) := by
      rw [div_lt_iff₀ hden]
      exact_mod_cast h
  · intro h
    have h2 : (q.num : ℚ) / (q.den : ℚ) < (n : ℚ) := by
      rw [Rat.num_div_den q]
      exact h
    rw [div_lt_iff₀ hden] at h2
    exact_mod_cast h2

/-- C2 fails as stated: rendering the live panel for a MultiSelect slider
with options red and blue and value 5 resets the value to 0 (the first
valid index), not to 1 (the last), and the registered handler then
returns 'red', not 'blue'. -/
theorem multiSelect_out_of_range_resets_to_zero :
    (renderMultiSelectValue msExample).value = .num 0 ∧
    (renderMultiSelectValue msExample).value ≠ .num 1 ∧
    handlerOutput (renderMultiSelectValue msExample) = "red" ∧
    handlerOutput (renderMultiSelectValue msExample) ≠ "blue" := by decide

/-- C2 amended: for a MultiSelect slider with a numeric value and at
least two valid options, the live-panel render resets an out-of-range
value to 0 (the first valid index) and leaves an in-range value
untouched; either way the resulting value lies in [0, len), hence an
integral value lies in [0, len - 1]; the macro handler of the reset
slider returns the first valid option. -/
theorem renderMultiSelectValue_spec (sl : Slider) (q : ℚ)
    (hv : sl.value = .num q) (hopts : 2 ≤ (validOptionsOf sl).length) :
    ((q < 0 ∨ ((validOptionsOf sl).length : ℚ) ≤ q) →
      (renderMultiSelectValue sl).value = .num 0 ∧
      (sl.type = "MultiSelect" →
        handlerOutput (renderMultiSelectValue sl) =
          (validOptionsOf sl).getD 0 "")) ∧
    (0 ≤ q → q < ((validOptionsOf sl).length : ℚ) →
      renderMultiSelectValue sl = sl) ∧
    (∃ q2 : ℚ, (renderMultiSelectValue sl).value = .num q2 ∧ 0 ≤ q2 ∧
      q2 < ((validOptionsOf sl).length : ℚ) ∧
      (q2.den = 1 → q2.num ≤ ((validOptionsOf sl).length : ℤ) - 1)) := by
  have hlen : ¬ (validOptionsOf sl).length < 2 := by omega
  have hcast : (((validOptionsOf sl).length : ℤ) : ℚ) =
      ((validOptionsOf sl).length : ℚ) := by push_cast; ring
  have hguard : (jsLtNum (jsToNumber sl.value) 0 ||
      jsGeNum (jsToNumber sl.value) ((validOptionsOf sl).length : ℤ)) =
      (qLtInt q 0 || !qLtInt q ((validOptionsOf sl).length : ℤ)) := by
    rw [hv]
    rfl
  by_cases hout : q < 0 ∨ ((validOptionsOf sl).length : ℚ) ≤ q
  · have hg : (qLtInt q 0 || !qLtInt q ((validOptionsOf sl).length : ℤ)) =
        true := by
      rcases hout with h | h
      · have : qLtInt q 0 = true := by
          rw [qLtInt_iff]
          exact_mod_cast h
        simp [this]
      · have : qLtInt q ((validOptionsOf sl).length : ℤ) = false := by
          rw [Bool.eq_false_iff]
          intro hc
          rw [qLtInt_iff, hcast] at hc
          exact absurd h (not_le.mpr hc)
        simp [this]
    have hrun : renderMultiSelectValue sl = { sl with value := .num 0 } := by
      unfold renderMultiSelectValue
      rw [if_neg hlen, hguard, hg]
      simp
    refine ⟨fun _ => ⟨by rw [hrun], fun ht => ?_⟩, fun h1 h2 => ?_, ?_⟩
    · have hty : (renderMultiSelectValue sl).type = "MultiSelect" := by
        rw [hrun]
        exact ht
      have hopts2 : validOptionsOf (renderMultiSelectValue sl) =
          validOptionsOf sl := by
        rw [hrun]
        rfl
      unfold handlerOutput
      rw [hty, if_pos rfl, hopts2, hrun]
      rfl
    · exact absurd hout (by push_neg; exact ⟨h1, h2⟩)
    · refine ⟨0, by rw [hrun], le_refl 0, ?_, ?_⟩
      · have : (0 : ℚ) < 2 := by norm_num
        have h2 : (2 : ℚ) ≤ ((validOptionsOf sl).length : ℚ) := by
          exact_mod_cast hopts
        linarith
      · intro _
        have h2 : (2 : ℤ) ≤ ((validOptionsOf sl).length : ℤ) := by
          exact_mod_cast hopts
        simp only [Rat.num_ofNat]
        omega
  · push_neg at hout
    obtain ⟨h1, h2⟩ := hout
    have hq0 : qLtInt q 0 = false := by
      rw [Bool.eq_false_iff]
      intro hc
      rw [qLtInt_iff] at hc
      exact absurd hc (not_lt.mpr (by exact_mod_cast h1))
    have hqlen : qLtInt q ((validOptionsOf sl).length : ℤ) = true := by
      rw [qLtInt_iff, hcast]
      exact h2
    have hg : (qLtInt q 0 || !qLtInt q ((validOptionsOf sl).length : ℤ)) =
        false := by
      rw [hq0, hqlen]
      rfl
    have hrun : renderMultiSelectValue sl = sl := by
      unfold renderMultiSelectValue
      rw [if_neg hlen, hguard, hg]
      simp
    refine ⟨fun h => ?_, fun _ _ => hrun, ⟨q, ?_, h1, h2, ?_⟩⟩
    · rcases h with h | h
      · exact absurd h (not_lt.mpr h1)
      · exact absurd h (not_le.mpr h2)
    · rw [hrun, hv]
    · intro hden
      have hnum : qLtInt q ((validOptionsOf sl).length : ℤ) = true := hqlen
      unfold qLtInt at hnum
      rw [decide_eq_true_iff, hden] at hnum
      omega

/-- Witness for C2's amended statement at the concrete slider msExample
(options red and blue, value 5). -/
theorem renderMultiSelectValue_spec_witness :
    ((5 : ℚ) < 0 ∨ ((validOptionsOf msExample).length : ℚ) ≤ 5 →
      (renderMultiSelectValue msExample).value = .num 0 ∧
      (msExample.type = "MultiSelect" →
        handlerOutput (renderMultiSelectValue msExample) =
          (validOptionsOf msExample).getD 0 "")) ∧
    (0 ≤ (5 : ℚ) → (5 : ℚ) < ((validOptionsOf msExample).length : ℚ) →
      renderMultiSelectValue msExample = msExample) ∧
    (∃ q2 : ℚ, (renderMultiSelectValue msExample).value = .num q2 ∧
      0 ≤ q2 ∧ q2 < ((validOptionsOf msExample).length : ℚ) ∧
      (q2.den = 1 →
        q2.num ≤ ((validOptionsOf msExample).length : ℤ) - 1)) :=
  renderMultiSelectValue_spec msExample 5 rfl (by decide)

theorem mem_map_ungroup {gid : String} {sls : List Slider} {sl : Slider}
    (hsl : sl ∈ sls.map (fun s =>
      if s.groupId == some gid then { s with groupId := none } else s)) :
    sl.groupId ≠ some gid := by
  simp only [List.mem_map] at hsl
  obtain ⟨s0, _, rfl⟩ := hsl
  by_cases h : (s0.groupId == some gid) = true
  · rw [if_pos h]
    intro hc
    cases hc
  · rw [if_neg h]
    intro hc
    exact h (by simpa using hc)

/-- C8: deleting the group at index gi (after confirmation) nulls the
groupId of every slider that referenced its id, removes exactly that
array entry, and — group ids being unique — leaves no group and no slider
carrying the deleted id. -/
theorem deleteGroup_spec (c : SliderCollection) (gi : Nat) (g : SliderGroup)
    (hg : c.groups[gi]? = some g)
    (hid : (c.groups.map (fun x => x.id)).Nodup) :
    (deleteGroup c gi).groups = c.groups.eraseIdx gi ∧
    (deleteGroup c gi).sliders = c.sliders.map (fun s =>
      if s.groupId == some g.id then { s with groupId := none } else s) ∧
    (∀ sl ∈ (deleteGroup c gi).sliders, sl.groupId ≠ some g.id) ∧
    (∀ x ∈ (deleteGroup c gi).groups, x.id ≠ g.id) := by
  have hdg : deleteGroup c gi = { c with
      sliders := c.sliders.map (fun s =>
        if s.groupId == some g.id then { s with groupId := none } else s)
      groups := c.groups.eraseIdx gi } := by
    unfold deleteGroup
    rw [hg]
  refine ⟨by rw [hdg], by rw [hdg], ?_, ?_⟩
  · intro sl hsl
    rw [hdg] at hsl
    exact mem_map_ungroup hsl
  · intro x hx
    rw [hdg] at hx
    simp only at hx
    rw [List.mem_eraseIdx_iff_getElem?] at hx
    obtain ⟨i, hne, hi⟩ := hx
    have hgi : gi < c.groups.length := by
      by_contra hcon
      rw [List.getElem?_eq_none (by omega)] at hg
      cases hg
    have hil : i < c.groups.length := by
      by_contra hcon
      rw [List.getElem?_eq_none (by omega)] at hi
      cases hi
    have hx2 : c.groups[i] = x := by
      have := List.getElem?_eq_getElem hil
      rw [this] at hi
      exact Option.some_injective _ hi
    have hg2 : c.groups[gi] = g := by
      have := List.getElem?_eq_getElem hgi
      rw [this] at hg
      exact Option.some_injective _ hg
    intro hcontra
    have hil2 : i < (c.groups.map (fun x => x.id)).length := by
      simpa using hil
    have hgi2 : gi < (c.groups.map (fun x => x.id)).length := by
      simpa using hgi
    have hmap : (c.groups.map (fun x => x.id))[i] =
        (c.groups.map (fun x => x.id))[gi] := by
      rw [List.getElem_map, List.getElem_map, hx2, hg2, hcontra]
    have := hid.getElem_inj_iff.mp hmap
    exact hne this

/-- Witness for C8 at a concrete collection: group g1 at index 0 is
deleted; the slider that referenced g1 is ungrouped and g1 is gone. -/
theorem deleteGroup_spec_witness :
    (deleteGroup
        { active := true, name := "A", presets := []
          sliders := [{ baseSlider with groupId := some "g1" },
                      { baseSlider with groupId := some "g2" }]
          groups := [{ id := "g1", name := "G", collapsed := false
                       order := 0 },
                     { id := "g2", name := "H", collapsed := false
                       order := 1 }] } 0).groups =
      ([{ id := "g1", name := "G", collapsed := false, order := 0 },
        { id := "g2", name := "H", collapsed := false, order := 1 }] :
        List SliderGroup).eraseIdx 0 ∧
    (deleteGroup
        { active := true, name := "A", presets := []
          sliders := [{ baseSlider with groupId := some "g1" },
                      { baseSlider with groupId := some "g2" }]
          groups := [{ id := "g1", name := "G", collapsed := false
                       order := 0 },
                     { id := "g2", name := "H", collapsed := false
                       order := 1 }] } 0).sliders =
      ([{ baseSlider with groupId := some "g1" },
        { baseSlider with groupId := some "g2" }] : List Slider).map
        (fun s => if s.groupId == some "g1" then { s with groupId := none }
                  else s) ∧
    (∀ sl ∈ (deleteGroup
        { active := true, name := "A", presets := []
          sliders := [{ baseSlider with groupId := some "g1" },
                      { baseSlider with groupId := some "g2" }]
          groups := [{ id := "g1", name := "G", collapsed := false
                       order := 0 },
                     { id := "g2", name := "H", collapsed := false
                       order := 1 }] } 0).sliders,
      sl.groupId ≠ some "g1") ∧
    (∀ x ∈ (deleteGroup
        { active := true, name := "A", presets := []
          sliders := [{ baseSlider with groupId := some "g1" },
                      { baseSlider with groupId := some "g2" }]
          groups := [{ id := "g1", name := "G", collapsed := false
                       order := 0 },
                     { id := "g2", name := "H", collapsed := false
                       order := 1 }] } 0).groups,
      x.id ≠ "g1") :=
  deleteGroup_spec
    { active := true, name := "A", presets := []
      sliders := [{ baseSlider with groupId := some "g1" },
                  { baseSlider with groupId := some "g2" }]
      groups := [{ id := "g1", name := "G", collapsed := false, order := 0 },
                 { id := "g2", name := "H", collapsed := false, order := 1 }] }
    0 { id := "g1", name := "G", collapsed := false, order := 0 }
    (by decide) (by decide)

theorem migrateCollection_active (c : RawCollection) :
    (migrateCollection c).active = c.active := rfl

theorem countP_active_map_migrate (l : List RawCollection) :
    (l.map migrateCollection).countP (fun c => c.active) =
      l.countP (fun c => c.active) := by
  induction l with
  | nil => rfl
  | cons hd tl ih =>
    simp only [List.map_cons, List.countP_cons, ih, migrateCollection_active]

theorem ensureNonempty_ne_nil (l : List RawCollection) :
    ensureNonempty l ≠ [] := by
  unfold ensureNonempty
  split <;> rename_i h
  · simp
  · intro hc
    rw [hc] at h
    exact h rfl

theorem ensureActive_countP (l : List RawCollection) (h : l ≠ []) :
    1 ≤ (ensureActive l).countP (fun c => c.active) := by
  unfold ensureActive
  split <;> rename_i hany
  · rw [Nat.succ_le, List.countP_pos_iff]
    simpa [List.any_eq_true] using hany
  · match l, h with
    | c :: rest, _ =>
      simp [List.countP_cons]

theorem countActive_getSettings (input : Option RawSettings) :
    countActive (getSettings input) =
      (ensureActive (ensureNonempty
        ((if (input.getD defaultRawSettings).collections = none then
            defaultRawSettings.collections
          else (input.getD defaultRawSettings).collections).getD []))).countP
        (fun c => c.active) := by
  simp only [getSettings, countActive, Option.getD_some]
  exact countP_active_map_migrate _

theorem countP_eraseIdx_succ (l : List RawCollection) (i : Nat)
    (hi : i < l.length) (hact : l[i].active = true) :
    (l.eraseIdx i).countP (fun c => c.active) + 1 =
      l.countP (fun c => c.active) := by
  rw [List.eraseIdx_eq_take_drop_succ, List.countP_append]
  conv_rhs => rw [← List.take_append_drop i l]
  rw [List.countP_append, List.drop_eq_getElem_cons hi, List.countP_cons,
    hact]
  simp only [if_pos]
  omega

/-- C1 fails as stated on the load path: getSettings only guarantees at
least one active collection; a persisted state with two active
collections still has two after loading. -/
theorem getSettings_keeps_two_active :
    countActive (getSettings (some twoActiveRaw)) = 2 := by decide

/-- C1 amended: getSettings guarantees at least one active collection
(several persisted active collections all stay active); starting from a
state with exactly one active collection, createCollection and
deleteCollection leave exactly one collection active, and the
switch-active handler leaves exactly one active provided the selected
name is borne by exactly one collection (which the dropdown contents and
the duplicate-name rejection provide). -/
theorem collection_active_invariant :
    (∀ input, 1 ≤ countActive (getSettings input)) ∧
    (∀ input name, countActive (getSettings input) = 1 →
      countActive (createCollection input name) = 1) ∧
    (∀ input confirm, countActive (getSettings input) = 1 →
      countActive (deleteCollection input confirm) = 1) ∧
    (∀ s name, (s.collections.getD []).countP
        (fun c => c.name == name) = 1 →
      countActive (switchActive s name) = 1) := by
  refine ⟨?_, ?_, ?_, ?_⟩
  · intro input
    rw [countActive_getSettings]
    exact ensureActive_countP _ (ensureNonempty_ne_nil _)
  · intro input name h
    unfold createCollection
    split_ifs with hname hdup
    · exact h
    · exact h
    · simp only [countActive, Option.getD_some, List.countP_append]
      have hz : (((getSettings input).collections.getD []).map
          (fun c => { c with active := false })).countP
          (fun c => c.active) = 0 := by
        rw [List.countP_eq_zero]
        intro a ha
        simp only [List.mem_map] at ha
        obtain ⟨b, _, rfl⟩ := ha
        simp
      rw [hz]
      rfl
  · intro input confirm h
    unfold deleteCollection
    by_cases hlen : ((getSettings input).collections.getD []).length = 1
    · rw [if_pos hlen]
      exact h
    · rw [if_neg hlen]
      cases hfind : ((getSettings input).collections.getD []).findIdx?
          (fun c => c.active) with
      | none => exact h
      | some i =>
        by_cases hc : confirm = true
        · simp only [hc, Bool.not_true, Bool.false_eq_true, if_false]
          rw [List.findIdx?_eq_some_iff_getElem] at hfind
          obtain ⟨hi, hact, -⟩ := hfind
          have hcount := countP_eraseIdx_succ _ i hi hact
          have h2 : List.countP (fun c => c.active)
              ((getSettings input).collections.getD []) = 1 := h
          rw [h2] at hcount
          have hzero : (((getSettings input).collections.getD []).eraseIdx
              i).countP (fun c => c.active) = 0 := by omega
          cases herase : ((getSettings input).collections.getD []).eraseIdx
              i with
          | nil =>
            rw [List.eraseIdx_eq_nil] at herase
            rcases herase with hnil | ⟨h1, -⟩
            · rw [hnil] at h2
              simp at h2
            · exact absurd h1 hlen
          | cons c0 rest =>
            rw [herase] at hzero
            simp only [List.countP_cons] at hzero
            have hrest : rest.countP (fun c => c.active) = 0 := by omega
            simp [countActive, List.countP_cons, hrest]
        · have hc2 : confirm = false := by simpa using hc
          simp only [hc2, Bool.not_false, if_true]
          exact h
  · intro s name h
    simp only [switchActive, countActive, Option.getD_some,
      List.countP_map]
    rw [← h]
    apply List.countP_congr
    intro a _
    simp [Function.comp]


/-- Witness for C1's amended statement at concrete inputs: one active
collection named A plus an inactive B; create a collection C, delete with
confirmation, and switch to B. -/
theorem collection_active_invariant_witness :
    (1 ≤ countActive (getSettings (some oneActiveRaw))) ∧
    countActive (createCollection (some oneActiveRaw) "C") = 1 ∧
    countActive (deleteCollection (some oneActiveRaw) true) = 1 ∧
    countActive (switchActive oneActiveRaw "B") = 1 :=
  ⟨collection_active_invariant.1 (some oneActiveRaw),
   collection_active_invariant.2.1 (some oneActiveRaw) "C" (by decide),
   collection_active_invariant.2.2.1 (some oneActiveRaw) true (by decide),
   collection_active_invariant.2.2.2 oneActiveRaw "B" (by decide)⟩

theorem orStr_ne_empty (x : Option String) (d : String) (hd : d ≠ "") :
    orStr x d ≠ "" := by
  unfold orStr
  cases x with
  | none => exact hd
  | some s =>
    by_cases h : s = "" <;> simp [h, hd]

theorem migrateSync_idem (sl : RawSlider) (hse : sl.syncEnabled = .undef)
    (hstv : sl.syncToVariable = none) (hvs : sl.variableSource = none)
    (hvsc : sl.variableScope = none) (v : String)
    (hv : sl.syncVariable = some v) (scv : String)
    (hscv : sl.syncScope = some scv) (hne : scv ≠ "") :
    migrateSync sl = sl := by
  rcases sl with ⟨n, p, val, gid, ord, se, sv, sc, stv, vs, vsc⟩
  simp only at hse hstv hvs hvsc hv hscv
  subst hse hstv hvs hvsc hv hscv
  unfold migrateSync
  simp [orStr, hne]
  by_cases hveq : v = "" <;> simp [hveq]

theorem migrateSync_migrated_of (sl : RawSlider) (hg : sl.groupId ≠ none)
    (ho : sl.order ≠ none) : sliderMigrated (migrateSync sl) :=
  ⟨hg, ho, fun _ => ⟨rfl, rfl, rfl, ⟨_, rfl⟩, ⟨_, rfl,
    orStr_ne_empty _ _ (orStr_ne_empty _ _ (by decide))⟩⟩⟩

theorem sliderMigrated_ite (sl2 : RawSlider) (hg : sl2.groupId ≠ none)
    (ho : sl2.order ≠ none) :
    sliderMigrated
      (if sl2.syncEnabled = .undef then migrateSync sl2 else sl2) := by
  by_cases hse : sl2.syncEnabled = .undef
  · rw [if_pos hse]
    exact migrateSync_migrated_of sl2 hg ho
  · rw [if_neg hse]
    exact ⟨hg, ho, fun h => absurd h hse⟩

theorem migSlider1_fst_migrated (acc : ℤ) (sl : RawSlider) :
    sliderMigrated (migSlider1 acc sl).1 := by
  rcases sl with ⟨n, p, val, gid, ord, se, sv, sc, stv, vs, vsc⟩
  unfold migSlider1
  cases gid with
  | none =>
    cases ord with
    | none => exact sliderMigrated_ite _ (by simp) (by simp)
    | some o => exact sliderMigrated_ite _ (by simp) (by simp)
  | some g =>
    cases ord with
    | none => exact sliderMigrated_ite _ (by simp) (by simp)
    | some o => exact sliderMigrated_ite _ (by simp) (by simp)

theorem migSlider1_fst_idem (acc : ℤ) (sl : RawSlider)
    (h : sliderMigrated sl) : (migSlider1 acc sl).1 = sl := by
  obtain ⟨hg, ho, himp⟩ := h
  unfold migSlider1
  rw [if_neg hg]
  cases hso : sl.order with
  | none => exact absurd hso ho
  | some o =>
    simp only [hso]
    by_cases hse : sl.syncEnabled = .undef
    · obtain ⟨hstv, hvs, hvsc, ⟨v, hv⟩, ⟨scv, hscv, hne⟩⟩ := himp hse
      simp only [if_pos hse]
      exact migrateSync_idem sl hse hstv hvs hvsc v hv scv hscv hne
    · simp only [if_neg hse]

theorem migSliders_fst_migrated (ss : List RawSlider) : ∀ (a : ℤ),
    ∀ sl ∈ (migSliders a ss).1, sliderMigrated sl := by
  induction ss with
  | nil =>
    intro a sl h
    simp [migSliders] at h
  | cons hd tl ih =>
    intro a sl h
    simp only [migSliders, List.mem_cons] at h
    rcases h with rfl | h2
    · exact migSlider1_fst_migrated a hd
    · exact ih _ sl h2

theorem migSliders_fst_idem (ss : List RawSlider)
    (h : ∀ sl ∈ ss, sliderMigrated sl) : ∀ (a : ℤ),
    (migSliders a ss).1 = ss := by
  induction ss with
  | nil => intro a; rfl
  | cons hd tl ih =>
    intro a
    simp only [migSliders]
    rw [migSlider1_fst_idem a hd (h hd (by simp))]
    rw [ih (fun sl hsl => h sl (by simp [hsl])) _]

theorem migSliders_fst_length (ss : List RawSlider) : ∀ (a : ℤ),
    (migSliders a ss).1.length = ss.length := by
  induction ss with
  | nil => intro a; rfl
  | cons hd tl ih =>
    intro a
    simp only [migSliders, List.length_cons, ih]

theorem migGroups_fst_order (gs : List RawGroup) : ∀ (a : ℤ) (i : Nat),
    ∀ g ∈ (migGroups a i gs).1, g.order ≠ none := by
  induction gs with
  | nil =>
    intro a i g h
    simp [migGroups] at h
  | cons hd tl ih =>
    intro a i g h
    simp only [migGroups, List.mem_cons] at h
    rcases h with rfl | h2
    · cases hor : hd.order with
      | none => simp [hor]
      | some o => simp [hor]
    · exact ih _ _ g h2

theorem migGroups_fst_idem (gs : List RawGroup)
    (h : ∀ g ∈ gs, g.order ≠ none) : ∀ (a : ℤ) (i : Nat),
    (migGroups a i gs).1 = gs := by
  induction gs with
  | nil => intro a i; rfl
  | cons hd tl ih =>
    intro a i
    simp only [migGroups]
    cases hor : hd.order with
    | none => exact absurd hor (h hd (by simp))
    | some o =>
      simp only [hor]
      rw [ih (fun g hg => h g (by simp [hg])) _ _]

theorem migGroups_fst_length (gs : List RawGroup) : ∀ (a : ℤ) (i : Nat),
    (migGroups a i gs).1.length = gs.length := by
  induction gs with
  | nil => intro a i; rfl
  | cons hd tl ih =>
    intro a i
    cases hor : hd.order with
    | none => simp only [migGroups, hor, List.length_cons, ih]
    | some o => simp only [migGroups, hor, List.length_cons, ih]

theorem migrateCollection_idem (c : RawCollection) :
    migrateCollection (migrateCollection c) = migrateCollection c := by
  have hg1 : ∀ g ∈ (migGroups (-1) 0 (c.groups.getD [])).1, g.order ≠ none :=
    migGroups_fst_order _ _ _
  have hs1 : ∀ sl ∈ (migSliders (migGroups (-1) 0 (c.groups.getD [])).2
      c.sliders).1, sliderMigrated sl := migSliders_fst_migrated _ _
  show ({ migrateCollection c with
      groups := some (migGroups (-1) 0
        ((migrateCollection c).groups.getD [])).1
      sliders := (migSliders (migGroups (-1) 0
        ((migrateCollection c).groups.getD [])).2
        (migrateCollection c).sliders).1 } : RawCollection) =
    migrateCollection c
  have e1 : (migrateCollection c).groups.getD [] =
      (migGroups (-1) 0 (c.groups.getD [])).1 := rfl
  have e2 : (migrateCollection c).sliders =
      (migSliders (migGroups (-1) 0 (c.groups.getD [])).2 c.sliders).1 := rfl
  rw [e1, e2, migGroups_fst_idem _ hg1 _ _, migSliders_fst_idem _ hs1 _]
  rfl

theorem ensureActive_length (l : List RawCollection) :
    (ensureActive l).length = l.length := by
  unfold ensureActive
  split
  · rfl
  · match l with
    | [] => rfl
    | c :: r => rfl

theorem map_migrate_idem (X : List RawCollection) :
    (X.map migrateCollection).map migrateCollection =
      X.map migrateCollection := by
  rw [List.map_map]
  exact List.map_congr_left (fun c _ => by
    simp only [Function.comp_apply, migrateCollection_idem])

theorem getSettings_any_active (input : Option RawSettings) :
    (((getSettings input).collections.getD []).any fun c => c.active) =
      true := by
  rw [List.any_eq_true]
  have h1 : 1 ≤ countActive (getSettings input) := by
    rw [countActive_getSettings]
    exact ensureActive_countP _ (ensureNonempty_ne_nil _)
  rw [countActive] at h1
  obtain ⟨c, hc, hcact⟩ := List.countP_pos_iff.mp h1
  exact ⟨c, hc, hcact⟩

theorem getSettings_cols_ne_nil (input : Option RawSettings) :
    ((getSettings input).collections.getD []) ≠ [] := by
  intro hc
  have hany := getSettings_any_active input
  rw [hc] at hany
  simp at hany

theorem migrateCollection_sliders_length (c : RawCollection) :
    (migrateCollection c).sliders.length = c.sliders.length :=
  migSliders_fst_length _ _

theorem migrateCollection_groups_length (c : RawCollection) :
    ((migrateCollection c).groups.getD []).length =
      (c.groups.getD []).length :=
  migGroups_fst_length _ _ _

theorem ensureActive_getElem_sliders (l : List RawCollection) (i : Nat) :
    (ensureActive l)[i]?.map (fun c => c.sliders.length) =
      l[i]?.map (fun c => c.sliders.length) := by
  unfold ensureActive
  split
  · rfl
  · cases l with
    | nil => rfl
    | cons c rest =>
      cases i with
      | zero => simp
      | succ n => simp

theorem ensureActive_getElem_groups (l : List RawCollection) (i : Nat) :
    (ensureActive l)[i]?.map (fun c => (c.groups.getD []).length) =
      l[i]?.map (fun c => (c.groups.getD []).length) := by
  unfold ensureActive
  split
  · rfl
  · cases l with
    | nil => rfl
    | cons c rest =>
      cases i with
      | zero => simp
      | succ n => simp

theorem getSettings_collections_of_some (input : Option RawSettings)
    (l : List RawCollection) (hl : l ≠ [])
    (hc : (input.getD defaultRawSettings).collections = some l) :
    (getSettings input).collections =
      some ((ensureActive l).map migrateCollection) := by
  have hne : ensureNonempty l = l := by
    unfold ensureNonempty
    rw [if_neg]
    simp only [List.length_eq_zero]
    exact hl
  simp [getSettings, hc, hne]

/-- C3: getSettings is idempotent (running it on its own output changes
nothing), and the load never removes a collection, a group, or a slider:
with a non-empty persisted collections array, the output has the same
number of collections, and index for index the same number of sliders and
of groups. -/
theorem getSettings_idempotent :
    (∀ input, getSettings (some (getSettings input)) = getSettings input) ∧
    (∀ input,
      ((input.getD defaultRawSettings).collections.getD []) ≠ [] →
      ∃ cols2 : List RawCollection,
        (getSettings input).collections = some cols2 ∧
        cols2.length =
          ((input.getD defaultRawSettings).collections.getD []).length ∧
        (∀ i : Nat, cols2[i]?.map (fun c => c.sliders.length) =
          ((input.getD defaultRawSettings).collections.getD [])[i]?.map
            (fun c => c.sliders.length)) ∧
        (∀ i : Nat, cols2[i]?.map (fun c => (c.groups.getD []).length) =
          ((input.getD defaultRawSettings).collections.getD [])[i]?.map
            (fun c => (c.groups.getD []).length))) := by
  constructor
  · intro input
    have hshape : getSettings (some (getSettings input)) =
        { collections := some ((ensureActive (ensureNonempty
            ((getSettings input).collections.getD []))).map
            migrateCollection) } := rfl
    rw [hshape]
    have h1 : ensureNonempty ((getSettings input).collections.getD []) =
        (getSettings input).collections.getD [] := by
      unfold ensureNonempty
      rw [if_neg]
      simp only [List.length_eq_zero]
      exact getSettings_cols_ne_nil input
    have h2 : ensureActive ((getSettings input).collections.getD []) =
        (getSettings input).collections.getD [] := by
      unfold ensureActive
      rw [if_pos (getSettings_any_active input)]
    have h3 : (((getSettings input).collections.getD []).map
        migrateCollection) = (getSettings input).collections.getD [] :=
      map_migrate_idem _
    rw [h1, h2, h3]
    rfl
  · intro input h
    cases hc : (input.getD defaultRawSettings).collections with
    | none =>
      exfalso
      apply h
      rw [hc]
      rfl
    | some l =>
      have hl : l ≠ [] := by
        intro hnil
        apply h
        rw [hc, hnil]
        rfl
      refine ⟨(ensureActive l).map migrateCollection,
        getSettings_collections_of_some input l hl hc, ?_, ?_, ?_⟩
      · rw [Option.getD_some, List.length_map, ensureActive_length]
      · intro i
        rw [Option.getD_some, List.getElem?_map,
          ← ensureActive_getElem_sliders l i]
        cases (ensureActive l)[i]? with
        | none => rfl
        | some c => simp [migrateCollection_sliders_length]
      · intro i
        rw [Option.getD_some, List.getElem?_map,
          ← ensureActive_getElem_groups l i]
        cases (ensureActive l)[i]? with
        | none => rfl
        | some c => simp [migrateCollection_groups_length]

/-- Witness for C3 at a concrete persisted input with two collections:
the second pass is the identity and the load keeps both collections with
all their sliders and groups. -/
theorem getSettings_idempotent_witness :
    getSettings (some (getSettings (some twoActiveRaw))) =
      getSettings (some twoActiveRaw) ∧
    ∃ cols2 : List RawCollection,
      (getSettings (some twoActiveRaw)).collections = some cols2 ∧
      cols2.length = (((some twoActiveRaw : Option RawSettings).getD
          defaultRawSettings).collections.getD []).length ∧
      cols2[0]?.map (fun c => c.sliders.length) =
        (((some twoActiveRaw : Option RawSettings).getD
          defaultRawSettings).collections.getD [])[0]?.map
          (fun c => c.sliders.length) ∧
      cols2[1]?.map (fun c => (c.groups.getD []).length) =
        (((some twoActiveRaw : Option RawSettings).getD
          defaultRawSettings).collections.getD [])[1]?.map
          (fun c => (c.groups.getD []).length) :=
  ⟨getSettings_idempotent.1 (some twoActiveRaw), by
    obtain ⟨cols2, h1, h2, h3, h4⟩ :=
      getSettings_idempotent.2 (some twoActiveRaw) (List.cons_ne_nil _ _)
    exact ⟨cols2, h1, h2, h3 0, h4 1⟩⟩

theorem findIdx_eq_of_getElem {α : Type} (l : List α) (p : α → Bool) :
    ∀ (k : Nat), (hk : k < l.length) → p l[k] = true →
    (∀ j, (hj : j < l.length) → j < k → p l[j] = false) →
    l.findIdx p = k := by
  induction l with
  | nil =>
    intro k hk _ _
    exact absurd hk (by simp)
  | cons hd tl ih =>
    intro k hk hpk hprev
    cases k with
    | zero =>
      have h0 : p hd = true := by simpa using hpk
      rw [List.findIdx_cons, h0]
      rfl
    | succ k2 =>
      have h0 : p hd = false := by
        have h1 := hprev 0 (by simp) (Nat.succ_pos k2)
        simpa using h1
      rw [List.findIdx_cons, h0]
      simp only [cond_false]
      have h2 : tl.findIdx p = k2 := by
        apply ih k2 (by simpa using hk)
        · simpa using hpk
        · intro j hj hjk
          have h3 := hprev (j+1) (by simpa using hj) (by omega)
          simpa using h3
      rw [h2]

theorem findIdx_last_of_getElem {α : Type} (L : List α) (p : α → Bool)
    (q : α) (hq : L[L.length - 1]? = some q) (hpq : p q = true)
    (hprev : ∀ j, (hj : j < L.length) → j < L.length - 1 → p L[j] = false) :
    L.findIdx p = L.length - 1 := by
  have hlen : 0 < L.length := by
    rcases L with _ | _
    · simp at hq
    · simp
  have hk : L.length - 1 < L.length := by omega
  have hq2 : L[L.length - 1] = q := by
    rw [List.getElem?_eq_getElem hk, Option.some.injEq] at hq
    exact hq
  apply findIdx_eq_of_getElem _ _ _ hk
  · rw [hq2]
    exact hpq
  · exact hprev

theorem pred_false_before_last_of_pairwise {α : Type} (L : List α)
    (R : α → α → Prop) (hpw : L.Pairwise R) (p : α → Bool) (q : α)
    (hq : L[L.length - 1]? = some q) (hpq : p q = true)
    (himp : ∀ a b, p a = true → p b = true → R a b → False) :
    ∀ j, (hj : j < L.length) → j < L.length - 1 → p L[j] = false := by
  intro j hj hjk
  have hk : L.length - 1 < L.length := by omega
  have hq2 : L[L.length - 1] = q := by
    rw [List.getElem?_eq_getElem hk, Option.some.injEq] at hq
    exact hq
  cases hc : p L[j] with
  | false => rfl
  | true =>
    exfalso
    have hR : R L[j] L[L.length - 1] :=
      List.pairwise_iff_getElem.mp hpw j (L.length - 1) hj hk hjk
    rw [hq2] at hR
    exact himp _ _ hc hpq hR

theorem nodup_fst_enum_filter {α : Type} (l : List α) (p : Nat × α → Bool) :
    ((l.enum.filter p).map Prod.fst).Nodup := by
  have hsub : List.Sublist ((l.enum.filter p).map Prod.fst)
      (l.enum.map Prod.fst) :=
    (List.filter_sublist _).map Prod.fst
  rw [List.enum_map_fst] at hsub
  exact hsub.nodup (List.nodup_range _)

theorem groupScope_fst_pairwise (c : SliderCollection) (gid : Option String) :
    (groupScope c gid).Pairwise (fun a b => a.1 ≠ b.1) := by
  have hnd : ((groupScope c gid).map Prod.fst).Nodup := by
    have hperm := (List.mergeSort_perm
      (c.sliders.enum.filter (fun p => p.2.groupId == gid))
      (fun a b => decide (a.2.order ≤ b.2.order))).map Prod.fst
    rw [groupScope, List.Perm.nodup_iff hperm]
    exact nodup_fst_enum_filter _ _
  have hnd2 : List.Pairwise (fun a b => a ≠ b)
      ((groupScope c gid).map Prod.fst) := hnd
  rw [List.pairwise_map] at hnd2
  exact hnd2

theorem moveItems_pairwise (c : SliderCollection) :
    (moveItems c).Pairwise
      (fun a b => a.isGroup = false → b.isGroup = false → a.ref ≠ b.ref) := by
  have hsym : Symmetric (α := MoveItem)
      (fun a b => a.isGroup = false → b.isGroup = false → a.ref ≠ b.ref) :=
    fun a b h hb ha he => h ha hb he.symm
  simp only [moveItems]
  rw [List.Perm.pairwise_iff (fun h => hsym h) (List.mergeSort_perm _ _)]
  rw [List.pairwise_append]
  refine ⟨?_, ?_, ?_⟩
  · rw [List.pairwise_map, List.pairwise_iff_getElem]
    intro a b ha hb hab hfa
    simp at hfa
  · have hnd : List.Pairwise (fun a b => a ≠ b)
        ((c.sliders.enum.filter (fun p => !truthyGroupId p.2.groupId)).map
          Prod.fst) := nodup_fst_enum_filter _ _
    rw [List.pairwise_map] at hnd
    rw [List.pairwise_map]
    exact hnd.imp (fun h => fun _ _ => h)
  · intro a ha b hb hfa
    simp only [List.mem_map] at ha
    obtain ⟨pa, hpa, rfl⟩ := ha
    simp at hfa

theorem orderedItems_pairwise (c : SliderCollection)
    (hnd : (c.groups.map (fun g => g.id)).Nodup) :
    (orderedItems c).Pairwise
      (fun a b => a.isGroup = true → b.isGroup = true → a.id ≠ b.id) := by
  have hsym : Symmetric (α := OrderedItem)
      (fun a b => a.isGroup = true → b.isGroup = true → a.id ≠ b.id) :=
    fun a b h hb ha he => h ha hb he.symm
  simp only [orderedItems]
  rw [List.Perm.pairwise_iff (fun h => hsym h) (List.mergeSort_perm _ _)]
  rw [List.pairwise_append]
  refine ⟨?_, ?_, ?_⟩
  · have hnd2 : List.Pairwise (fun a b => a ≠ b)
        (c.groups.map (fun g => g.id)) := hnd
    rw [List.pairwise_map] at hnd2
    rw [List.pairwise_map]
    exact hnd2.imp (fun h => fun _ _ => h)
  · rw [List.pairwise_map, List.pairwise_iff_getElem]
    intro a b ha hb hab hfa
    simp at hfa
  · intro a ha b hb hfa hfb
    simp only [List.mem_map] at hb
    obtain ⟨pb, hpb, rfl⟩ := hb
    simp at hfb

/-- C9: boundary moves are no-ops.  Moving up the entity that is first in
its ordering scope, or down the entity that is last, returns the
collection unchanged (so in particular every order value is unchanged):
for a grouped slider the scope is its sorted group-sibling list, for an
ungrouped slider the sorted unified group-plus-ungrouped-slider list, and
for a group the sorted getOrderedItems list (the group-down case assumes
the collection's group ids are distinct, which locating the neighbour by
id relies on). -/
theorem move_boundary_noop :
    (∀ (c : SliderCollection) (i : Nat) (sl : Slider),
      c.sliders[i]? = some sl →
      truthyGroupId sl.groupId = true →
      (groupScope c sl.groupId).head?.map Prod.fst = some i →
      sliderMoveUp c i = c) ∧
    (∀ (c : SliderCollection) (i : Nat) (sl : Slider),
      c.sliders[i]? = some sl →
      truthyGroupId sl.groupId = true →
      (groupScope c sl.groupId).getLast?.map Prod.fst = some i →
      sliderMoveDown c i = c) ∧
    (∀ (c : SliderCollection) (i : Nat) (sl : Slider),
      c.sliders[i]? = some sl →
      truthyGroupId sl.groupId = false →
      (moveItems c).head?.map (fun it => (it.isGroup, it.ref)) =
        some (false, i) →
      sliderMoveUp c i = c) ∧
    (∀ (c : SliderCollection) (i : Nat) (sl : Slider),
      c.sliders[i]? = some sl →
      truthyGroupId sl.groupId = false →
      (moveItems c).getLast?.map (fun it => (it.isGroup, it.ref)) =
        some (false, i) →
      sliderMoveDown c i = c) ∧
    (∀ (c : SliderCollection) (gi : Nat) (g : SliderGroup),
      c.groups[gi]? = some g →
      (orderedItems c).head?.map (fun it => (it.isGroup, it.id)) =
        some (true, g.id) →
      groupMoveUp c gi = c) ∧
    (∀ (c : SliderCollection) (gi : Nat) (g : SliderGroup),
      c.groups[gi]? = some g →
      (c.groups.map (fun g2 => g2.id)).Nodup →
      (orderedItems c).getLast?.map (fun it => (it.isGroup, it.id)) =
        some (true, g.id) →
      groupMoveDown c gi = c) := by
  refine ⟨?_, ?_, ?_, ?_, ?_, ?_⟩
  · intro c i sl h1 h2 h3
    cases hs : groupScope c sl.groupId with
    | nil =>
      rw [hs] at h3
      simp at h3
    | cons hd tl =>
      rw [hs] at h3
      simp only [List.head?_cons, Option.map_some', Option.some.injEq] at h3
      have hb : (hd.1 == i) = true := beq_iff_eq.mpr h3
      simp [sliderMoveUp, h1, h2, hs, List.findIdx_cons, hb]
  · intro c i sl h1 h2 h3
    rw [List.getLast?_eq_getElem?] at h3
    cases hq : (groupScope c sl.groupId)[(groupScope c sl.groupId).length - 1]? with
    | none =>
      rw [hq] at h3
      simp at h3
    | some q =>
      rw [hq] at h3
      simp only [Option.map_some', Option.some.injEq] at h3
      have hpq : (q.1 == i) = true := beq_iff_eq.mpr h3
      have hfi : (groupScope c sl.groupId).findIdx (fun r => r.1 == i) =
          (groupScope c sl.groupId).length - 1 := by
        apply findIdx_last_of_getElem _ _ q hq hpq
        apply pred_false_before_last_of_pairwise _ _
          (groupScope_fst_pairwise c sl.groupId) (fun r => r.1 == i) q hq hpq
        intro a b ha hb hR
        exact hR ((eq_of_beq ha).trans (eq_of_beq hb).symm)
      have hlen : 0 < (groupScope c sl.groupId).length := by
        rcases hms : groupScope c sl.groupId with _ | _
        · rw [hms] at hq
          simp at hq
        · simp [hms]
      have hcond : ¬((groupScope c sl.groupId).findIdx (fun r => r.1 == i) + 1 <
          (groupScope c sl.groupId).length) := by
        rw [hfi]
        omega
      simp [sliderMoveDown, h1, h2, hcond]
  · intro c i sl h1 h2 h3
    cases hs : moveItems c with
    | nil =>
      rw [hs] at h3
      simp at h3
    | cons hd tl =>
      rw [hs] at h3
      simp only [List.head?_cons, Option.map_some', Option.some.injEq,
        Prod.mk.injEq] at h3
      obtain ⟨hdg, hdr⟩ := h3
      have hb : (!hd.isGroup && (hd.ref == i)) = true := by
        rw [hdg, hdr]
        simp
      simp [sliderMoveUp, h1, h2, hs, List.findIdx_cons, hb]
  · intro c i sl h1 h2 h3
    rw [List.getLast?_eq_getElem?] at h3
    cases hq : (moveItems c)[(moveItems c).length - 1]? with
    | none =>
      rw [hq] at h3
      simp at h3
    | some q =>
      rw [hq] at h3
      simp only [Option.map_some', Option.some.injEq, Prod.mk.injEq] at h3
      obtain ⟨hqg, hqr⟩ := h3
      have hpq : (!q.isGroup && (q.ref == i)) = true := by
        rw [hqg, hqr]
        simp
      have hfi : (moveItems c).findIdx (fun it => !it.isGroup && it.ref == i) =
          (moveItems c).length - 1 := by
        apply findIdx_last_of_getElem _ _ q hq hpq
        apply pred_false_before_last_of_pairwise _ _
          (moveItems_pairwise c) (fun it => !it.isGroup && it.ref == i) q hq hpq
        intro a b ha hb hR
        rw [Bool.and_eq_true, Bool.not_eq_true'] at ha hb
        exact hR ha.1 hb.1 ((eq_of_beq ha.2).trans (eq_of_beq hb.2).symm)
      have hlen : 0 < (moveItems c).length := by
        rcases hms : moveItems c with _ | _
        · rw [hms] at hq
          simp at hq
        · simp [hms]
      have hcond : ¬((moveItems c).findIdx
          (fun it => !it.isGroup && it.ref == i) + 1 <
          (moveItems c).length) := by
        rw [hfi]
        omega
      simp [sliderMoveDown, h1, h2, hcond]
  · intro c gi g h1 h3
    cases hs : orderedItems c with
    | nil =>
      rw [hs] at h3
      simp at h3
    | cons hd tl =>
      rw [hs] at h3
      simp only [List.head?_cons, Option.map_some', Option.some.injEq,
        Prod.mk.injEq] at h3
      obtain ⟨hdg, hdi⟩ := h3
      have hb : (hd.isGroup && (hd.id == g.id)) = true := by
        rw [hdg, hdi]
        simp
      simp [groupMoveUp, h1, hs, List.findIdx_cons, hb]
  · intro c gi g h1 hnd h3
    rw [List.getLast?_eq_getElem?] at h3
    cases hq : (orderedItems c)[(orderedItems c).length - 1]? with
    | none =>
      rw [hq] at h3
      simp at h3
    | some q =>
      rw [hq] at h3
      simp only [Option.map_some', Option.some.injEq, Prod.mk.injEq] at h3
      obtain ⟨hqg, hqi⟩ := h3
      have hpq : (q.isGroup && (q.id == g.id)) = true := by
        rw [hqg, hqi]
        simp
      have hfi : (orderedItems c).findIdx
          (fun it => it.isGroup && it.id == g.id) =
          (orderedItems c).length - 1 := by
        apply findIdx_last_of_getElem _ _ q hq hpq
        apply pred_false_before_last_of_pairwise _ _
          (orderedItems_pairwise c hnd) (fun it => it.isGroup && it.id == g.id)
          q hq hpq
        intro a b ha hb hR
        rw [Bool.and_eq_true] at ha hb
        exact hR ha.1 hb.1 ((eq_of_beq ha.2).trans (eq_of_beq hb.2).symm)
      have hlen : 0 < (orderedItems c).length := by
        rcases hms : orderedItems c with _ | _
        · rw [hms] at hq
          simp at hq
        · simp [hms]
      have hcond : ¬((orderedItems c).findIdx
          (fun it => it.isGroup && it.id == g.id) + 1 <
          (orderedItems c).length) := by
        rw [hfi]
        omega
      simp [groupMoveDown, h1, hcond]

/-- Witness for C9: each of the six boundary cases applied to a concrete
collection (the grouped slider is alone in its group scope, the group
heads the combined scope of W9, the ungrouped slider ends it; the first
slider of W9c heads its all-slider scope; the only group of W9d ends its
scope). -/
theorem move_boundary_noop_witness :
    sliderMoveUp W9 0 = W9 ∧ sliderMoveDown W9 0 = W9 ∧
    sliderMoveUp W9c 0 = W9c ∧ sliderMoveDown W9 1 = W9 ∧
    groupMoveUp W9 0 = W9 ∧ groupMoveDown W9d 0 = W9d := by
  have hgs : groupScope W9 w9SliderA.groupId = [(0, w9SliderA)] := by
    have h0 : W9.sliders.enum.filter
        (fun p => p.2.groupId == w9SliderA.groupId) = [(0, w9SliderA)] := by
      decide
    rw [groupScope, h0, List.mergeSort_singleton]
  have hmi : moveItems W9 =
      [⟨0, true, 0⟩, ⟨2, false, 1⟩] := by
    have h0 : (W9.groups.enum.map (fun p =>
          ({ order := p.2.order, isGroup := true, ref := p.1 } : MoveItem)) ++
        (W9.sliders.enum.filter (fun p => !truthyGroupId p.2.groupId)).map
          (fun p =>
            ({ order := p.2.order, isGroup := false, ref := p.1 } : MoveItem))) =
        [⟨0, true, 0⟩, ⟨2, false, 1⟩] := by
      decide
    simp only [moveItems]
    rw [h0]
    exact List.mergeSort_of_sorted (by decide)
  have hmic : moveItems W9c =
      [⟨1, false, 0⟩, ⟨2, false, 1⟩] := by
    have h0 : (W9c.groups.enum.map (fun p =>
          ({ order := p.2.order, isGroup := true, ref := p.1 } : MoveItem)) ++
        (W9c.sliders.enum.filter (fun p => !truthyGroupId p.2.groupId)).map
          (fun p =>
            ({ order := p.2.order, isGroup := false, ref := p.1 } : MoveItem))) =
        [⟨1, false, 0⟩, ⟨2, false, 1⟩] := by
      decide
    simp only [moveItems]
    rw [h0]
    exact List.mergeSort_of_sorted (by decide)
  have hoi : orderedItems W9 =
      [⟨0, true, "g1"⟩, ⟨2, false, "pB"⟩] := by
    have h0 : (W9.groups.map (fun g =>
          ({ order := g.order, isGroup := true, id := g.id } : OrderedItem)) ++
        (W9.sliders.filter (fun s => !truthyGroupId s.groupId)).map
          (fun s =>
            ({ order := s.order, isGroup := false, id := s.property } : OrderedItem))) =
        [⟨0, true, "g1"⟩, ⟨2, false, "pB"⟩] := by
      decide
    simp only [orderedItems]
    rw [h0]
    exact List.mergeSort_of_sorted (by decide)
  have hoid : orderedItems W9d = [⟨5, true, "g2"⟩] := by
    have h0 : (W9d.groups.map (fun g =>
          ({ order := g.order, isGroup := true, id := g.id } : OrderedItem)) ++
        (W9d.sliders.filter (fun s => !truthyGroupId s.groupId)).map
          (fun s =>
            ({ order := s.order, isGroup := false, id := s.property } : OrderedItem))) =
        [⟨5, true, "g2"⟩] := by
      decide
    simp only [orderedItems]
    rw [h0, List.mergeSort_singleton]
  refine ⟨?_, ?_, ?_, ?_, ?_, ?_⟩
  · exact move_boundary_noop.1 W9 0 w9SliderA rfl rfl
      (by rw [hgs]; rfl)
  · exact move_boundary_noop.2.1 W9 0 w9SliderA rfl rfl
      (by rw [hgs]; rfl)
  · exact move_boundary_noop.2.2.1 W9c 0
      { baseSlider with name := "C", property := "pC", order := 1 } rfl rfl
      (by rw [hmic]; rfl)
  · exact move_boundary_noop.2.2.2.1 W9 1 w9SliderB rfl rfl
      (by rw [hmi]; rfl)
  · exact move_boundary_noop.2.2.2.2.1 W9 0 w9Group rfl
      (by rw [hoi]; rfl)
  · exact move_boundary_noop.2.2.2.2.2 W9d 0
      { id := "g2", name := "G2", collapsed := false, order := 5 } rfl
      (by decide) (by rw [hoid]; rfl)

theorem foldlMax_le (xs : List ℤ) : ∀ (a : ℤ),
    a ≤ xs.foldl (fun a b => if a ≤ b then b else a) a ∧
    ∀ y ∈ xs, y ≤ xs.foldl (fun a b => if a ≤ b then b else a) a := by
  induction xs with
  | nil =>
    intro a
    exact ⟨le_refl a, by simp⟩
  | cons b xs ih =>
    intro a
    simp only [List.foldl_cons]
    constructor
    · calc a ≤ (if a ≤ b then b else a) := by split <;> omega
        _ ≤ _ := (ih _).1
    · intro y hy
      rcases List.mem_cons.mp hy with rfl | hy2
      · calc y ≤ (if a ≤ y then y else a) := by split <;> omega
          _ ≤ _ := (ih _).1
      · exact (ih _).2 y hy2

theorem lt_getNextOrder (c : SliderCollection) (x : ℤ)
    (hx : x ∈ combinedOrders c) : x < getNextOrder c := by
  unfold getNextOrder
  cases hco : combinedOrders c with
  | nil =>
    rw [hco] at hx
    simp at hx
  | cons h0 t0 =>
    rw [hco] at hx
    show x < t0.foldl (fun a b => if a ≤ b then b else a) h0 + 1
    rcases List.mem_cons.mp hx with rfl | hx2
    · have h4 := (foldlMax_le t0 x).1
      omega
    · have h4 := (foldlMax_le t0 h0).2 x hx2
      omega

theorem combinedOrders_of_ungrouped (c : SliderCollection)
    (h : ∀ sl ∈ c.sliders, sl.groupId = none) :
    combinedOrders c = c.groups.map (fun g => g.order) ++
      c.sliders.map (fun s => s.order) := by
  have hfil : c.sliders.filter (fun s => !truthyGroupId s.groupId) =
      c.sliders := by
    apply List.filter_eq_self.mpr
    intro s hs
    rw [h s hs]
    rfl
  rw [combinedOrders, hfil]

theorem getElem_cons_set_perm {α : Type} : ∀ (xs : List α) (k : Nat),
    (hk : k < xs.length) → ∀ (x : α),
    List.Perm (xs[k] :: xs.set k x) (x :: xs) := by
  intro xs
  induction xs with
  | nil =>
    intro k hk x
    exact absurd hk (by simp)
  | cons y ys ih =>
    intro k hk x
    cases k with
    | zero => exact List.Perm.swap x y ys
    | succ m =>
      have hm : m < ys.length := by simpa using hk
      show List.Perm (ys[m] :: y :: ys.set m x) (x :: y :: ys)
      refine List.Perm.trans (List.Perm.swap y (ys[m]) (ys.set m x)) ?_
      refine List.Perm.trans (List.Perm.cons y (ih m hm x)) ?_
      exact List.Perm.swap x y ys

theorem set_set_swap_perm {α : Type} : ∀ (l : List α) (i j : Nat),
    (hi : i < l.length) → (hj : j < l.length) →
    List.Perm ((l.set i l[j]).set j l[i]) l := by
  intro l
  induction l with
  | nil =>
    intro i j hi hj
    exact absurd hi (by simp)
  | cons x xs ih =>
    intro i j hi hj
    cases i with
    | zero =>
      cases j with
      | zero => exact List.Perm.refl _
      | succ m =>
        have hm : m < xs.length := by simpa using hj
        show List.Perm (xs[m] :: xs.set m x) (x :: xs)
        exact getElem_cons_set_perm xs m hm x
    | succ k =>
      cases j with
      | zero =>
        have hk2 : k < xs.length := by simpa using hi
        show List.Perm (xs[k] :: xs.set k x) (x :: xs)
        exact getElem_cons_set_perm xs k hk2 x
      | succ m =>
        have hk2 : k < xs.length := by simpa using hi
        have hm : m < xs.length := by simpa using hj
        show List.Perm (x :: (xs.set k xs[m]).set m xs[k]) (x :: xs)
        exact List.Perm.cons x (ih k m hk2 hm)

theorem cross_swap_perm {α : Type} : ∀ (l1 l2 : List α) (j i : Nat),
    (hj : j < l1.length) → (hi : i < l2.length) →
    List.Perm ((l1.set j l2[i]) ++ (l2.set i l1[j])) (l1 ++ l2) := by
  intro l1
  induction l1 with
  | nil =>
    intro l2 j i hj hi
    exact absurd hj (by simp)
  | cons x xs ih =>
    intro l2 j i hj hi
    cases j with
    | zero =>
      show List.Perm (l2[i] :: (xs ++ l2.set i x)) (x :: (xs ++ l2))
      refine List.Perm.trans (List.Perm.cons _ List.perm_append_comm) ?_
      refine List.Perm.trans
        (List.Perm.append_right xs (getElem_cons_set_perm l2 i hi x)) ?_
      exact List.Perm.cons _ List.perm_append_comm
    | succ m =>
      have hm : m < xs.length := by simpa using hj
      show List.Perm
        (x :: (xs.set m l2[i] ++ l2.set i xs[m])) (x :: (xs ++ l2))
      exact List.Perm.cons x (ih l2 m i hm hi)

theorem nodup_insert_fresh (g s : List ℤ) (n : ℤ)
    (h2 : (g ++ s).Nodup) (hf : ∀ x ∈ g ++ s, x < n) :
    (g ++ n :: s).Nodup := by
  rw [List.Perm.nodup_iff (List.perm_middle), List.nodup_cons]
  refine ⟨?_, h2⟩
  intro hmem
  exact absurd (hf n hmem) (by omega)

theorem inv_createSlider (c : SliderCollection)
    (h1 : ∀ sl ∈ c.sliders, sl.groupId = none)
    (h2 : (combinedOrders c).Nodup) :
    (∀ sl ∈ (createSlider c).sliders, sl.groupId = none) ∧
    (combinedOrders (createSlider c)).Nodup := by
  have hug : ∀ sl ∈ (createSlider c).sliders, sl.groupId = none := by
    intro sl hsl
    rcases List.mem_cons.mp hsl with rfl | hmem
    · rfl
    · exact h1 sl hmem
  refine ⟨hug, ?_⟩
  rw [combinedOrders_of_ungrouped _ hug]
  have hco : (createSlider c).groups.map (fun g => g.order) ++
      (createSlider c).sliders.map (fun s => s.order) =
      c.groups.map (fun g => g.order) ++ getNextOrder c ::
        c.sliders.map (fun s => s.order) := rfl
  rw [hco]
  apply nodup_insert_fresh
  · rw [← combinedOrders_of_ungrouped c h1]
    exact h2
  · intro x hx
    rw [← combinedOrders_of_ungrouped c h1] at hx
    exact lt_getNextOrder c x hx

theorem inv_createGroup (c : SliderCollection) (id : String)
    (h1 : ∀ sl ∈ c.sliders, sl.groupId = none)
    (h2 : (combinedOrders c).Nodup) :
    (∀ sl ∈ (createGroup c id).sliders, sl.groupId = none) ∧
    (combinedOrders (createGroup c id)).Nodup := by
  refine ⟨h1, ?_⟩
  have hfil : c.sliders.filter (fun s => !truthyGroupId s.groupId) =
      c.sliders := by
    apply List.filter_eq_self.mpr
    intro s hs
    rw [h1 s hs]
    rfl
  have hcomb : combinedOrders (createGroup c id) =
      (c.groups.map (fun g => g.order) ++ [getNextOrder c]) ++
        c.sliders.map (fun s => s.order) := by
    simp [combinedOrders, createGroup, hfil]
  rw [hcomb, List.append_assoc, List.singleton_append]
  apply nodup_insert_fresh
  · rw [← combinedOrders_of_ungrouped c h1]
    exact h2
  · intro x hx
    rw [← combinedOrders_of_ungrouped c h1] at hx
    exact lt_getNextOrder c x hx

theorem inv_push_slider (c : SliderCollection) (sl2 : Slider)
    (h1 : ∀ sl ∈ c.sliders, sl.groupId = none)
    (h2 : (combinedOrders c).Nodup)
    (hg : sl2.groupId = none) (ho : sl2.order = getNextOrder c) :
    (∀ sl ∈ c.sliders ++ [sl2], sl.groupId = none) ∧
    (combinedOrders { c with sliders := c.sliders ++ [sl2] }).Nodup := by
  have hug : ∀ sl ∈ c.sliders ++ [sl2], sl.groupId = none := by
    intro s hs
    rcases List.mem_append.mp hs with hmem | hmem
    · exact h1 s hmem
    · rw [List.mem_singleton] at hmem
      rw [hmem]
      exact hg
  refine ⟨hug, ?_⟩
  have hfil : (c.sliders ++ [sl2]).filter
      (fun s => !truthyGroupId s.groupId) = c.sliders ++ [sl2] := by
    apply List.filter_eq_self.mpr
    intro s hs
    rw [hug s hs]
    rfl
  have hcomb : combinedOrders { c with sliders := c.sliders ++ [sl2] } =
      c.groups.map (fun g => g.order) ++
        (c.sliders.map (fun s => s.order) ++ [sl2.order]) := by
    simp [combinedOrders, hfil]
  rw [hcomb, ho]
  rw [List.Perm.nodup_iff (List.Perm.append_left _
    (List.perm_append_singleton _ _))]
  apply nodup_insert_fresh
  · rw [← combinedOrders_of_ungrouped c h1]
    exact h2
  · intro x hx
    rw [← combinedOrders_of_ungrouped c h1] at hx
    exact lt_getNextOrder c x hx

theorem inv_duplicateSlider (c : SliderCollection) (i : Nat)
    (h1 : ∀ sl ∈ c.sliders, sl.groupId = none)
    (h2 : (combinedOrders c).Nodup) :
    (∀ sl ∈ (duplicateSlider c i).sliders, sl.groupId = none) ∧
    (combinedOrders (duplicateSlider c i)).Nodup := by
  cases hsi : c.sliders[i]? with
  | none =>
    have hd : duplicateSlider c i = c := by simp [duplicateSlider, hsi]
    rw [hd]
    exact ⟨h1, h2⟩
  | some sl =>
    have hslg : sl.groupId = none := h1 sl (List.getElem?_mem hsi)
    have hd : duplicateSlider c i =
        { c with sliders := c.sliders ++ [{ sl with name := sl.name ++ " Copy", property := "", order := getNextOrder c }] } := by
      simp [duplicateSlider, hsi]
    rw [hd]
    exact inv_push_slider c _ h1 h2 hslg rfl

theorem inv_swapSliderOrders (c : SliderCollection) (i j : Nat)
    (h1 : ∀ sl ∈ c.sliders, sl.groupId = none)
    (h2 : (combinedOrders c).Nodup) :
    (∀ sl ∈ (swapSliderOrders c i j).sliders, sl.groupId = none) ∧
    (combinedOrders (swapSliderOrders c i j)).Nodup := by
  cases hsi : c.sliders[i]? with
  | none =>
    have hd : swapSliderOrders c i j = c := by simp [swapSliderOrders, hsi]
    rw [hd]
    exact ⟨h1, h2⟩
  | some si =>
    cases hsj : c.sliders[j]? with
    | none =>
      have hd : swapSliderOrders c i j = c := by
        simp [swapSliderOrders, hsi, hsj]
      rw [hd]
      exact ⟨h1, h2⟩
    | some sj =>
      have hd : swapSliderOrders c i j = { c with sliders := (c.sliders.set i { si with order := sj.order }).set j { sj with order := si.order } } := by
        simp [swapSliderOrders, hsi, hsj]
      obtain ⟨hi2, hvi⟩ := List.getElem?_eq_some_iff.mp hsi
      obtain ⟨hj2, hvj⟩ := List.getElem?_eq_some_iff.mp hsj
      have hug : ∀ sl ∈ ((c.sliders.set i { si with order := sj.order }).set j
          { sj with order := si.order }), sl.groupId = none := by
        intro s hs
        rcases List.mem_or_eq_of_mem_set hs with hs2 | hs2
        · rcases List.mem_or_eq_of_mem_set hs2 with hs3 | hs3
          · exact h1 s hs3
          · rw [hs3]
            exact h1 si (List.getElem?_mem hsi)
        · rw [hs2]
          exact h1 sj (List.getElem?_mem hsj)
      rw [hd]
      refine ⟨hug, ?_⟩
      have hfil : ((c.sliders.set i { si with order := sj.order }).set j
          { sj with order := si.order }).filter
            (fun s => !truthyGroupId s.groupId) =
          ((c.sliders.set i { si with order := sj.order }).set j
            { sj with order := si.order }) := by
        apply List.filter_eq_self.mpr
        intro s hs
        rw [hug s hs]
        rfl
      have hcomb : combinedOrders { c with sliders := (c.sliders.set i { si with order := sj.order }).set j { sj with order := si.order } } =
          c.groups.map (fun g => g.order) ++
            (((c.sliders.map (fun s => s.order)).set i sj.order).set j
              si.order) := by
        simp [combinedOrders, hfil]
      rw [hcomb]
      have hi3 : i < (c.sliders.map (fun s => s.order)).length := by
        simpa using hi2
      have hj3 : j < (c.sliders.map (fun s => s.order)).length := by
        simpa using hj2
      have hgoj : (c.sliders.map (fun s => s.order))[j] = sj.order := by
        rw [List.getElem_map, hvj]
      have hgoi : (c.sliders.map (fun s => s.order))[i] = si.order := by
        rw [List.getElem_map, hvi]
      rw [← hgoj, ← hgoi]
      rw [List.Perm.nodup_iff (List.Perm.append_left _
        (set_set_swap_perm (c.sliders.map (fun s => s.order)) i j hi3 hj3))]
      rw [← combinedOrders_of_ungrouped c h1]
      exact h2

theorem inv_swapSliderWithGroup (c : SliderCollection) (i j : Nat)
    (h1 : ∀ sl ∈ c.sliders, sl.groupId = none)
    (h2 : (combinedOrders c).Nodup) :
    (∀ sl ∈ (swapSliderWithGroup c i j).sliders, sl.groupId = none) ∧
    (combinedOrders (swapSliderWithGroup c i j)).Nodup := by
  cases hsi : c.sliders[i]? with
  | none =>
    have hd : swapSliderWithGroup c i j = c := by
      simp [swapSliderWithGroup, hsi]
    rw [hd]
    exact ⟨h1, h2⟩
  | some si =>
    cases hgj : c.groups[j]? with
    | none =>
      have hd : swapSliderWithGroup c i j = c := by
        simp [swapSliderWithGroup, hsi, hgj]
      rw [hd]
      exact ⟨h1, h2⟩
    | some gj =>
      have hd : swapSliderWithGroup c i j = { c with
          sliders := c.sliders.set i { si with order := gj.order }
          groups := c.groups.set j { gj with order := si.order } } := by
        simp [swapSliderWithGroup, hsi, hgj]
      obtain ⟨hi2, hvi⟩ := List.getElem?_eq_some_iff.mp hsi
      obtain ⟨hj2, hvj⟩ := List.getElem?_eq_some_iff.mp hgj
      have hug : ∀ sl ∈ c.sliders.set i { si with order := gj.order },
          sl.groupId = none := by
        intro s hs
        rcases List.mem_or_eq_of_mem_set hs with hs2 | hs2
        · exact h1 s hs2
        · rw [hs2]
          exact h1 si (List.getElem?_mem hsi)
      rw [hd]
      refine ⟨hug, ?_⟩
      have hfil : (c.sliders.set i { si with order := gj.order }).filter
          (fun s => !truthyGroupId s.groupId) =
          c.sliders.set i { si with order := gj.order } := by
        apply List.filter_eq_self.mpr
        intro s hs
        rw [hug s hs]
        rfl
      have hcomb : combinedOrders { c with
          sliders := c.sliders.set i { si with order := gj.order }
          groups := c.groups.set j { gj with order := si.order } } =
          ((c.groups.map (fun g => g.order)).set j si.order) ++
            ((c.sliders.map (fun s => s.order)).set i gj.order) := by
        simp [combinedOrders, hfil]
      rw [hcomb]
      have hi3 : i < (c.sliders.map (fun s => s.order)).length := by
        simpa using hi2
      have hj3 : j < (c.groups.map (fun g => g.order)).length := by
        simpa using hj2
      have hgo : (c.groups.map (fun g => g.order))[j] = gj.order := by
        rw [List.getElem_map, hvj]
      have hso : (c.sliders.map (fun s => s.order))[i] = si.order := by
        rw [List.getElem_map, hvi]
      rw [← hgo, ← hso]
      rw [List.Perm.nodup_iff (cross_swap_perm _ _ j i hj3 hi3)]
      rw [← combinedOrders_of_ungrouped c h1]
      exact h2

theorem inv_swapGroupOrders (c : SliderCollection) (i j : Nat)
    (h1 : ∀ sl ∈ c.sliders, sl.groupId = none)
    (h2 : (combinedOrders c).Nodup) :
    (∀ sl ∈ (swapGroupOrders c i j).sliders, sl.groupId = none) ∧
    (combinedOrders (swapGroupOrders c i j)).Nodup := by
  cases hgi : c.groups[i]? with
  | none =>
    have hd : swapGroupOrders c i j = c := by simp [swapGroupOrders, hgi]
    rw [hd]
    exact ⟨h1, h2⟩
  | some gi =>
    cases hgj : c.groups[j]? with
    | none =>
      have hd : swapGroupOrders c i j = c := by
        simp [swapGroupOrders, hgi, hgj]
      rw [hd]
      exact ⟨h1, h2⟩
    | some gj =>
      have hd : swapGroupOrders c i j = { c with groups := (c.groups.set i { gi with order := gj.order }).set j { gj with order := gi.order } } := by
        simp [swapGroupOrders, hgi, hgj]
      obtain ⟨hi2, hvi⟩ := List.getElem?_eq_some_iff.mp hgi
      obtain ⟨hj2, hvj⟩ := List.getElem?_eq_some_iff.mp hgj
      rw [hd]
      refine ⟨h1, ?_⟩
      have hfil : c.sliders.filter (fun s => !truthyGroupId s.groupId) =
          c.sliders := by
        apply List.filter_eq_self.mpr
        intro s hs
        rw [h1 s hs]
        rfl
      have hcomb : combinedOrders { c with groups := (c.groups.set i { gi with order := gj.order }).set j { gj with order := gi.order } } =
          (((c.groups.map (fun g => g.order)).set i gj.order).set j
            gi.order) ++ c.sliders.map (fun s => s.order) := by
        simp [combinedOrders, hfil]
      rw [hcomb]
      have hi3 : i < (c.groups.map (fun g => g.order)).length := by
        simpa using hi2
      have hj3 : j < (c.groups.map (fun g => g.order)).length := by
        simpa using hj2
      have hgoj : (c.groups.map (fun g => g.order))[j] = gj.order := by
        rw [List.getElem_map, hvj]
      have hgoi : (c.groups.map (fun g => g.order))[i] = gi.order := by
        rw [List.getElem_map, hvi]
      rw [← hgoj, ← hgoi]
      rw [List.Perm.nodup_iff (List.Perm.append_right _
        (set_set_swap_perm (c.groups.map (fun g => g.order)) i j hi3 hj3))]
      rw [← combinedOrders_of_ungrouped c h1]
      exact h2

theorem inv_sliderMoveUp (c : SliderCollection) (i : Nat)
    (h1 : ∀ sl ∈ c.sliders, sl.groupId = none)
    (h2 : (combinedOrders c).Nodup) :
    (∀ sl ∈ (sliderMoveUp c i).sliders, sl.groupId = none) ∧
    (combinedOrders (sliderMoveUp c i)).Nodup := by
  cases hsi : c.sliders[i]? with
  | none =>
    have hd : sliderMoveUp c i = c := by simp [sliderMoveUp, hsi]
    rw [hd]
    exact ⟨h1, h2⟩
  | some slider =>
    have hg : truthyGroupId slider.groupId = false := by
      rw [h1 slider (List.getElem?_mem hsi)]
      rfl
    simp only [sliderMoveUp, hsi, hg, Bool.false_eq_true, if_false]
    split
    · split
      · split
        · exact inv_swapSliderWithGroup c i _ h1 h2
        · exact inv_swapSliderOrders c i _ h1 h2
      · exact ⟨h1, h2⟩
    · exact ⟨h1, h2⟩

theorem inv_sliderMoveDown (c : SliderCollection) (i : Nat)
    (h1 : ∀ sl ∈ c.sliders, sl.groupId = none)
    (h2 : (combinedOrders c).Nodup) :
    (∀ sl ∈ (sliderMoveDown c i).sliders, sl.groupId = none) ∧
    (combinedOrders (sliderMoveDown c i)).Nodup := by
  cases hsi : c.sliders[i]? with
  | none =>
    have hd : sliderMoveDown c i = c := by simp [sliderMoveDown, hsi]
    rw [hd]
    exact ⟨h1, h2⟩
  | some slider =>
    have hg : truthyGroupId slider.groupId = false := by
      rw [h1 slider (List.getElem?_mem hsi)]
      rfl
    simp only [sliderMoveDown, hsi, hg, Bool.false_eq_true, if_false]
    split
    · split
      · split
        · exact inv_swapSliderWithGroup c i _ h1 h2
        · exact inv_swapSliderOrders c i _ h1 h2
      · exact ⟨h1, h2⟩
    · exact ⟨h1, h2⟩

theorem inv_groupMoveUp (c : SliderCollection) (gi : Nat)
    (h1 : ∀ sl ∈ c.sliders, sl.groupId = none)
    (h2 : (combinedOrders c).Nodup) :
    (∀ sl ∈ (groupMoveUp c gi).sliders, sl.groupId = none) ∧
    (combinedOrders (groupMoveUp c gi)).Nodup := by
  cases hgi : c.groups[gi]? with
  | none =>
    have hd : groupMoveUp c gi = c := by simp [groupMoveUp, hgi]
    rw [hd]
    exact ⟨h1, h2⟩
  | some group =>
    simp only [groupMoveUp, hgi]
    split
    · split
      · exact ⟨h1, h2⟩
      · split
        · split
          · exact inv_swapGroupOrders c gi _ h1 h2
          · exact ⟨h1, h2⟩
        · split
          · exact inv_swapSliderWithGroup c _ gi h1 h2
          · exact ⟨h1, h2⟩
    · exact ⟨h1, h2⟩

theorem inv_groupMoveDown (c : SliderCollection) (gi : Nat)
    (h1 : ∀ sl ∈ c.sliders, sl.groupId = none)
    (h2 : (combinedOrders c).Nodup) :
    (∀ sl ∈ (groupMoveDown c gi).sliders, sl.groupId = none) ∧
    (combinedOrders (groupMoveDown c gi)).Nodup := by
  cases hgi : c.groups[gi]? with
  | none =>
    have hd : groupMoveDown c gi = c := by simp [groupMoveDown, hgi]
    rw [hd]
    exact ⟨h1, h2⟩
  | some group =>
    simp only [groupMoveDown, hgi]
    split
    · split
      · exact ⟨h1, h2⟩
      · split
        · split
          · exact inv_swapGroupOrders c gi _ h1 h2
          · exact ⟨h1, h2⟩
        · split
          · exact inv_swapSliderWithGroup c _ gi h1 h2
          · exact ⟨h1, h2⟩
    · exact ⟨h1, h2⟩

theorem reach_inv (c : SliderCollection) (h : ReachC c) :
    (∀ sl ∈ c.sliders, sl.groupId = none) ∧ (combinedOrders c).Nodup := by
  induction h with
  | init =>
    refine ⟨?_, ?_⟩
    · intro sl hsl
      simp [defaultCollection] at hsl
    · simp [combinedOrders, defaultCollection]
  | createS h ih => exact inv_createSlider _ ih.1 ih.2
  | createG id h ih => exact inv_createGroup _ id ih.1 ih.2
  | dup i h ih => exact inv_duplicateSlider _ i ih.1 ih.2
  | sUp i h ih => exact inv_sliderMoveUp _ i ih.1 ih.2
  | sDown i h ih => exact inv_sliderMoveDown _ i ih.1 ih.2
  | gUp i h ih => exact inv_groupMoveUp _ i ih.1 ih.2
  | gDown i h ih => exact inv_groupMoveDown _ i ih.1 ih.2

/-- C4: order uniqueness within each ordering scope in every collection
reachable from the default state by create-slider, create-group,
duplicate-slider and the move operations: the combined scope of group
orders plus ungrouped-slider orders has no duplicate, and for every group
the orders of the sliders inside it have no duplicate (in these reachable
collections no operation ever assigns a groupId, so every group is in
fact empty of sliders). -/
theorem order_uniqueness_reachable (c : SliderCollection) (h : ReachC c) :
    (combinedOrders c).Nodup ∧
    ∀ g ∈ c.groups,
      ((c.sliders.filter (fun s => s.groupId == some g.id)).map
        (fun s => s.order)).Nodup := by
  obtain ⟨hug, hnd⟩ := reach_inv c h
  refine ⟨hnd, ?_⟩
  intro g hg
  have hfe : c.sliders.filter (fun s => s.groupId == some g.id) = [] := by
    rw [List.filter_eq_nil_iff]
    intro s hs
    rw [hug s hs]
    simp
  rw [hfe]
  simp

/-- Witness for C4 at a concrete reachable collection built by creating a
group, creating a slider, duplicating it, and moving it down. -/
theorem order_uniqueness_reachable_witness :
    (combinedOrders (sliderMoveDown (duplicateSlider (createSlider
      (createGroup defaultCollection "g")) 0) 0)).Nodup ∧
    ∀ g ∈ (sliderMoveDown (duplicateSlider (createSlider
        (createGroup defaultCollection "g")) 0) 0).groups,
      (((sliderMoveDown (duplicateSlider (createSlider
          (createGroup defaultCollection "g")) 0) 0).sliders.filter
        (fun s => s.groupId == some g.id)).map (fun s => s.order)).Nodup :=
  order_uniqueness_reachable _
    (ReachC.sDown 0 (ReachC.dup 0 (ReachC.createS
      (ReachC.createG "g" ReachC.init))))

end SliderMacros
